import Mathlib

/-! The R interface of confseq (`r_package/src/confseq_interface.cpp`).

The file embeds the vectorising adapters `mapply2` and `mapply3`, the eleven
exported functions built on them, and `bernoulli_confidence_interval`.
(`quantile_ab_p_value` only hands its arguments to the class `QuantileABTest`
of `uniform_boundaries.h` and has no loop of its own.)

Modelling choices.

* A `Rcpp::NumericVector` is the list of its elements.  The element type `D`
  stands for `double`; it is kept abstract and only has to carry decimal
  literals (`0.05`, `1.4`, ...), so every result holds for IEEE doubles in
  particular.
* Lengths and the loop counter are natural numbers.  The source keeps the
  common length in an `int`; the model covers the vectors whose length that
  `int` holds exactly (fewer than `2^31` elements, the range of the standard
  vectors of R), for which the conversion is the identity.
* `Rcpp::rep_len` is the sugar expression of Rcpp: a view that reads
  `object[i % object.size()]` when element `i` is asked for.
* The scalar functions of namespace `confseq` come from
  `uniform_boundaries.h`.  They are parameters of the model.  A scalar
  function either returns a value or throws: it has type `... → Except ε _`,
  with `ε` the type of the exceptions.
* A call to an exported function ends in one of three ways: it returns, an
  exception of the scalar function leaves it (`Failure.raised`), or it runs
  into undefined behaviour (`Failure.undefined`).
* A parameter with a default value in the declaration is an `Option`: `none`
  is a call which omits it.
-/

namespace ConfseqInterface

/-- Ways in which a call of the binding layer fails to return. -/
inductive Failure (ε : Type) where
  /-- an exception thrown by the scalar function left the call -/
  | raised : ε → Failure ε
  /-- the call read `object[i % 0]` of an empty vector, which C++ leaves undefined -/
  | undefined : Failure ε
deriving DecidableEq

/-- Rcpp sugar expression built by `Rcpp::rep_len(object, len)`: a lazy view
of length `len` on the vector `object`. -/
structure Rep_len (D : Type) where
  object : List D
  len : Nat

/-- Rcpp sugar `rep_len`: builds the view, reads nothing. -/
def rep_len {D : Type} (object : List D) (len : Nat) : Rep_len D :=
  ⟨object, len⟩

/-- Element access of the view, `object[i % n]` with `n = object.size()`.
For an empty `object` the remainder `i % 0` is undefined in C++; the model
reports it as `Failure.undefined` (in Lean `i % 0 = i`, which is outside the
empty list). -/
def Rep_len.get {D ε : Type} (r : Rep_len D) (i : Nat) : Except (Failure ε) D :=
  match r.object[i % r.object.length]? with
  | some x => .ok x
  | none => .error .undefined

/-- Call of a scalar function inside the binding layer: a value is passed
on, an exception propagates (the binding layer has no `try`). -/
def call {ε α : Type} (r : Except ε α) : Except (Failure ε) α :=
  match r with
  | .ok v => .ok v
  | .error e => .error (.raised e)

/-- The loop `for (int i = start; i < n; i++) body`, as `forLoop body (n - start) start`:
the first numeric argument counts the iterations that remain, the second is
`i`, the state holds the variables the body writes.  A failing body ends
the loop at once. -/
def forLoop {σ E : Type} (body : Nat → σ → Except E σ) : Nat → Nat → σ → Except E σ
  | 0, _, s => .ok s
  | k + 1, i, s =>
    match body i s with
    | .ok t => forLoop body k (i + 1) t
    | .error e => .error e

/-- Source function `mapply2` (lines 12-23). -/
def mapply2 {D ε : Type} [OfScientific D] (fn : D → D → Except ε D)
    (arg1 arg2 : List D) : Except (Failure ε) (List D) :=
  let n := max arg1.length arg2.length
  let arg1_recycled := rep_len arg1 n
  let arg2_recycled := rep_len arg2 n
  let out : List D := List.replicate n 0.0
  forLoop (fun i out => do
    let x ← arg1_recycled.get i
    let y ← arg2_recycled.get i
    let v ← call (fn x y)
    pure (out.set i v)) n 0 out

/-- Source function `mapply3` (lines 25-38). -/
def mapply3 {D ε : Type} [OfScientific D] (fn : D → D → D → Except ε D)
    (arg1 arg2 arg3 : List D) : Except (Failure ε) (List D) :=
  let n := max arg1.length (max arg2.length arg3.length)
  let arg1_recycled := rep_len arg1 n
  let arg2_recycled := rep_len arg2 n
  let arg3_recycled := rep_len arg3 n
  let out : List D := List.replicate n 0.0
  forLoop (fun i out => do
    let x ← arg1_recycled.get i
    let y ← arg2_recycled.get i
    let z ← arg3_recycled.get i
    let v ← call (fn x y z)
    pure (out.set i v)) n 0 out

/-- Exported `normal_log_mixture` (lines 53-60); the first argument is
`confseq::normal_log_mixture`. -/
def normal_log_mixture {D ε : Type} [OfScientific D]
    (confseq_normal_log_mixture : D → D → D → D → Bool → Except ε D)
    (s v : List D) (v_opt : D) (alpha_opt : Option D) (is_one_sided : Option Bool) :
    Except (Failure ε) (List D) :=
  let alpha_opt := alpha_opt.getD 0.05
  let is_one_sided := is_one_sided.getD true
  mapply2 (fun x1 x2 => confseq_normal_log_mixture x1 x2 v_opt alpha_opt is_one_sided) s v

/-- Exported `normal_mixture_bound` (lines 73-80). -/
def normal_mixture_bound {D ε : Type} [OfScientific D]
    (confseq_normal_mixture_bound : D → D → D → D → Bool → Except ε D)
    (v alpha : List D) (v_opt : D) (alpha_opt : Option D) (is_one_sided : Option Bool) :
    Except (Failure ε) (List D) :=
  let alpha_opt := alpha_opt.getD 0.05
  let is_one_sided := is_one_sided.getD true
  mapply2 (fun x1 x2 => confseq_normal_mixture_bound x1 x2 v_opt alpha_opt is_one_sided) v alpha

/-- Exported `gamma_exponential_log_mixture` (lines 89-95). -/
def gamma_exponential_log_mixture {D ε : Type} [OfScientific D]
    (confseq_gamma_exponential_log_mixture : D → D → D → D → D → Except ε D)
    (s v : List D) (v_opt c : D) (alpha_opt : Option D) : Except (Failure ε) (List D) :=
  let alpha_opt := alpha_opt.getD 0.05
  mapply2 (fun x1 x2 => confseq_gamma_exponential_log_mixture x1 x2 v_opt c alpha_opt) s v

/-- Exported `gamma_exponential_mixture_bound` (lines 104-110). -/
def gamma_exponential_mixture_bound {D ε : Type} [OfScientific D]
    (confseq_gamma_exponential_mixture_bound : D → D → D → D → D → Except ε D)
    (v alpha : List D) (v_opt c : D) (alpha_opt : Option D) : Except (Failure ε) (List D) :=
  let alpha_opt := alpha_opt.getD 0.05
  mapply2 (fun x1 x2 => confseq_gamma_exponential_mixture_bound x1 x2 v_opt c alpha_opt) v alpha

/-- Exported `gamma_poisson_log_mixture` (lines 119-125). -/
def gamma_poisson_log_mixture {D ε : Type} [OfScientific D]
    (confseq_gamma_poisson_log_mixture : D → D → D → D → D → Except ε D)
    (s v : List D) (v_opt c : D) (alpha_opt : Option D) : Except (Failure ε) (List D) :=
  let alpha_opt := alpha_opt.getD 0.05
  mapply2 (fun x1 x2 => confseq_gamma_poisson_log_mixture x1 x2 v_opt c alpha_opt) s v

/-- Exported `gamma_poisson_mixture_bound` (lines 134-140). -/
def gamma_poisson_mixture_bound {D ε : Type} [OfScientific D]
    (confseq_gamma_poisson_mixture_bound : D → D → D → D → D → Except ε D)
    (v alpha : List D) (v_opt c : D) (alpha_opt : Option D) : Except (Failure ε) (List D) :=
  let alpha_opt := alpha_opt.getD 0.05
  mapply2 (fun x1 x2 => confseq_gamma_poisson_mixture_bound x1 x2 v_opt c alpha_opt) v alpha

/-- Exported `beta_binomial_log_mixture` (lines 151-158). -/
def beta_binomial_log_mixture {D ε : Type} [OfScientific D]
    (confseq_beta_binomial_log_mixture : D → D → D → D → D → D → Bool → Except ε D)
    (s v : List D) (v_opt g h : D) (alpha_opt : Option D) (is_one_sided : Option Bool) :
    Except (Failure ε) (List D) :=
  let alpha_opt := alpha_opt.getD 0.05
  let is_one_sided := is_one_sided.getD true
  mapply2
    (fun x1 x2 => confseq_beta_binomial_log_mixture x1 x2 v_opt g h alpha_opt is_one_sided) s v

/-- Exported `beta_binomial_mixture_bound` (lines 167-174). -/
def beta_binomial_mixture_bound {D ε : Type} [OfScientific D]
    (confseq_beta_binomial_mixture_bound : D → D → D → D → D → D → Bool → Except ε D)
    (v alpha : List D) (v_opt g h : D) (alpha_opt : Option D) (is_one_sided : Option Bool) :
    Except (Failure ε) (List D) :=
  let alpha_opt := alpha_opt.getD 0.05
  let is_one_sided := is_one_sided.getD true
  mapply2
    (fun x1 x2 => confseq_beta_binomial_mixture_bound x1 x2 v_opt g h alpha_opt is_one_sided)
    v alpha

/-- Exported `poly_stitching_bound` (lines 186-193). -/
def poly_stitching_bound {D ε : Type} [OfScientific D]
    (confseq_poly_stitching_bound : D → D → D → D → D → D → Except ε D)
    (v alpha : List D) (v_min : D) (c s eta : Option D) : Except (Failure ε) (List D) :=
  let c := c.getD 0.0
  let s := s.getD 1.4
  let eta := eta.getD 2.0
  mapply2 (fun x1 x2 => confseq_poly_stitching_bound x1 x2 v_min c s eta) v alpha

/-- Exported `empirical_process_lil_bound` (lines 213-219). -/
def empirical_process_lil_bound {D ε : Type} [OfScientific D]
    (confseq_empirical_process_lil_bound : D → D → D → D → Except ε D)
    (t alpha : List D) (t_min : D) (A : Option D) : Except (Failure ε) (List D) :=
  let A := A.getD 0.85
  mapply2 (fun x1 x2 => confseq_empirical_process_lil_bound x1 x2 t_min A) t alpha

/-- Exported `double_stitching_bound` (lines 237-244). -/
def double_stitching_bound {D ε : Type} [OfScientific D]
    (confseq_double_stitching_bound : D → D → D → D → D → D → D → Except ε D)
    (quantile_p t alpha : List D) (t_opt : D) (delta s eta : Option D) :
    Except (Failure ε) (List D) :=
  let delta := delta.getD 0.5
  let s := s.getD 1.4
  let eta := eta.getD 2.0
  mapply3 (fun x1 x2 x3 => confseq_double_stitching_bound x1 x2 x3 t_opt delta s eta)
    quantile_p t alpha

/-- Exported `bernoulli_confidence_interval` (lines 267-285).  The returned
`Rcpp::List` is the list of its named elements, in order. -/
def bernoulli_confidence_interval {D ε : Type} [OfScientific D]
    (confseq_bernoulli_confidence_interval : D → D → D → D → D → Except ε (D × D))
    (num_successes num_trials : List D) (alpha t_opt : D) (alpha_opt : Option D) :
    Except (Failure ε) (List (String × List D)) :=
  let alpha_opt := alpha_opt.getD 0.05
  let n := max num_successes.length num_trials.length
  let num_successes_recycled := rep_len num_successes n
  let num_trials_recycled := rep_len num_trials n
  let lower_bounds : List D := List.replicate n 0.0
  let upper_bounds : List D := List.replicate n 0.0
  match forLoop (fun i (st : List D × List D) => do
    let x ← num_successes_recycled.get i
    let y ← num_trials_recycled.get i
    let bounds ← call (confseq_bernoulli_confidence_interval x y alpha t_opt alpha_opt)
    pure (st.1.set i bounds.1, st.2.set i bounds.2)) n 0 (lower_bounds, upper_bounds) with
  | .ok st => .ok [("lower", st.1), ("upper", st.2)]
  | .error e => .error e

/-- A scalar function with a domain restriction, used as a concrete input:
it throws on a first argument equal to zero and returns the sum otherwise. -/
def rejectsZero (a b : ℚ) : Except String ℚ :=
  if a = 0 then .error "DomainError" else .ok (a + b)

/-! ## The loop -/

theorem forLoop_invariant {σ E : Type} (body : Nat → σ → Except E σ) (Inv : Nat → σ → Prop) :
    ∀ (k i : Nat) (s : σ), Inv i s →
      (∀ j, i ≤ j → j < i + k → ∀ t, Inv j t → ∃ u, body j t = .ok u ∧ Inv (j + 1) u) →
      ∃ u, forLoop body k i s = .ok u ∧ Inv (i + k) u := by
  intro k
  induction k with
  | zero => intro i s h _; exact ⟨s, rfl, h⟩
  | succ k ih =>
    intro i s h hstep
    obtain ⟨u, hu, hinv⟩ := hstep i (Nat.le_refl i) (by omega) s h
    obtain ⟨w, hw, hinvw⟩ := ih (i + 1) u hinv (fun j hj hjk t ht => hstep j (by omega) (by omega) t ht)
    refine ⟨w, ?_, ?_⟩
    · simp only [forLoop, hu]; exact hw
    · have : i + (k + 1) = i + 1 + k := by omega
      rw [this]; exact hinvw

theorem forLoop_ok_visits {σ E : Type} (body : Nat → σ → Except E σ) :
    ∀ (k i : Nat) (s u : σ), forLoop body k i s = .ok u →
      ∀ j, i ≤ j → j < i + k → ∃ t w, body j t = .ok w := by
  intro k
  induction k with
  | zero => intro i s u _ j h1 h2; omega
  | succ k ih =>
    intro i s u h j h1 h2
    simp only [forLoop] at h
    cases hb : body i s with
    | error e => rw [hb] at h; simp at h
    | ok t =>
      rw [hb] at h
      rcases Nat.eq_or_lt_of_le h1 with hij | hij
      · subst hij; exact ⟨s, t, hb⟩
      · exact ih (i + 1) t u h j hij (by omega)

theorem forLoop_error_of_first {σ E : Type} (body : Nat → σ → Except E σ) (e : E) (m : Nat)
    (hm : ∀ s, body m s = .error e) :
    ∀ (k i : Nat) (s : σ), i ≤ m → m < i + k →
      (∀ j, i ≤ j → j < m → ∀ t, ∃ u, body j t = .ok u) →
      forLoop body k i s = .error e := by
  intro k
  induction k with
  | zero => intro i s h1 h2; omega
  | succ k ih =>
    intro i s h1 h2 hok
    rcases Nat.eq_or_lt_of_le h1 with h | h
    · subst h
      simp [forLoop, hm]
    · obtain ⟨u, hu⟩ := hok i (Nat.le_refl i) h s
      simp only [forLoop, hu]
      exact ih (i + 1) u h (by omega) (fun j hj hjm t => hok j (by omega) hjm t)

/-! ## Recycled elements -/

theorem recycled_some {D : Type} (a : List D) (h : a ≠ []) (i : Nat) :
    ∃ x, a[i % a.length]? = some x := by
  have hl : 0 < a.length := List.length_pos.mpr h
  exact ⟨a.get ⟨i % a.length, Nat.mod_lt _ hl⟩, List.getElem?_eq_getElem (Nat.mod_lt _ hl)⟩

theorem Rep_len_get_ok {D ε : Type} (a : List D) (n i : Nat) (x : D)
    (h : a[i % a.length]? = some x) :
    (rep_len a n).get i = (Except.ok x : Except (Failure ε) D) := by
  simp [Rep_len.get, rep_len, h]

theorem Rep_len_get_ok_iff {D ε : Type} (a : List D) (n i : Nat) (x : D) :
    (rep_len a n).get i = (Except.ok x : Except (Failure ε) D) ↔ a[i % a.length]? = some x := by
  unfold Rep_len.get rep_len
  cases h : a[i % a.length]? <;> simp

/-! ## One step of the loop of `mapply2` -/

/-- The body of the loop of `mapply2`. -/
theorem mapply2_body_ok {D ε : Type} (fn : D → D → Except ε D) (a1 a2 : List D) (n i : Nat)
    (out : List D) (a b v : D) (h1 : a1[i % a1.length]? = some a)
    (h2 : a2[i % a2.length]? = some b) (h3 : fn a b = .ok v) :
    (do
      let x ← (rep_len a1 n).get i
      let y ← (rep_len a2 n).get i
      let v ← call (fn x y)
      pure (out.set i v) : Except (Failure ε) (List D)) = .ok (out.set i v) := by
  rw [Rep_len_get_ok a1 n i a h1, Rep_len_get_ok a2 n i b h2]
  simp [call, h3, bind, Except.bind, pure, Except.pure]

theorem mapply2_body_error {D ε : Type} (fn : D → D → Except ε D) (a1 a2 : List D) (n i : Nat)
    (out : List D) (a b : D) (e : ε) (h1 : a1[i % a1.length]? = some a)
    (h2 : a2[i % a2.length]? = some b) (h3 : fn a b = .error e) :
    (do
      let x ← (rep_len a1 n).get i
      let y ← (rep_len a2 n).get i
      let v ← call (fn x y)
      pure (out.set i v) : Except (Failure ε) (List D)) = .error (.raised e) := by
  rw [Rep_len_get_ok a1 n i a h1, Rep_len_get_ok a2 n i b h2]
  simp [call, h3, bind, Except.bind]

theorem mapply2_body_inv {D ε : Type} (fn : D → D → Except ε D) (a1 a2 : List D) (n i : Nat)
    (out w : List D)
    (h : (do
      let x ← (rep_len a1 n).get i
      let y ← (rep_len a2 n).get i
      let v ← call (fn x y)
      pure (out.set i v) : Except (Failure ε) (List D)) = .ok w) :
    ∃ a b v, a1[i % a1.length]? = some a ∧ a2[i % a2.length]? = some b ∧ fn a b = .ok v := by
  cases hx : ((rep_len a1 n).get i : Except (Failure ε) D) with
  | error e => simp [hx, bind, Except.bind] at h
  | ok x =>
    cases hy : ((rep_len a2 n).get i : Except (Failure ε) D) with
    | error e => simp [hx, hy, bind, Except.bind] at h
    | ok y =>
      cases hv : fn x y with
      | error e => simp [hx, hy, hv, bind, Except.bind, call] at h
      | ok v =>
        exact ⟨x, y, v, (Rep_len_get_ok_iff a1 n i x).mp hx, (Rep_len_get_ok_iff a2 n i y).mp hy, hv⟩

/-! ## `mapply2` as a whole -/

theorem mapply2_returns {D ε : Type} [OfScientific D] (fn : D → D → Except ε D)
    (a1 a2 : List D) (val : Nat → D)
    (h : ∀ i, i < max a1.length a2.length →
      ∃ a b, a1[i % a1.length]? = some a ∧ a2[i % a2.length]? = some b ∧ fn a b = .ok (val i)) :
    ∃ out, mapply2 fn a1 a2 = .ok out ∧ out.length = max a1.length a2.length ∧
      ∀ i, i < max a1.length a2.length → out[i]? = some (val i) := by
  unfold mapply2
  obtain ⟨u, hu, hlen, hval⟩ := forLoop_invariant
    (fun i out => do
      let x ← (rep_len a1 (max a1.length a2.length)).get i
      let y ← (rep_len a2 (max a1.length a2.length)).get i
      let v ← call (fn x y)
      pure (out.set i v) : Nat → List D → Except (Failure ε) (List D))
    (fun j out => out.length = max a1.length a2.length ∧ ∀ m, m < j → out[m]? = some (val m))
    (max a1.length a2.length) 0 (List.replicate (max a1.length a2.length) 0.0)
    ⟨by simp, fun m hm => absurd hm (Nat.not_lt_zero m)⟩
    (by
      intro j _ hj t ht
      obtain ⟨a, b, h1, h2, h3⟩ := h j (by omega)
      refine ⟨t.set j (val j), mapply2_body_ok fn a1 a2 _ j t a b (val j) h1 h2 h3, ?_, ?_⟩
      · simpa using ht.1
      · intro m hm
        rcases Nat.eq_or_lt_of_le (Nat.le_of_lt_succ hm) with hmj | hmj
        · subst hmj
          exact List.getElem?_set_self (by omega)
        · rw [List.getElem?_set_ne (by omega)]
          exact ht.2 m hmj)
  refine ⟨u, hu, hlen, ?_⟩
  intro i hi
  exact hval i (by omega)

theorem mapply2_ok_visits {D ε : Type} [OfScientific D] (fn : D → D → Except ε D)
    (a1 a2 out : List D) (h : mapply2 fn a1 a2 = .ok out) :
    ∀ i, i < max a1.length a2.length →
      ∃ a b v, a1[i % a1.length]? = some a ∧ a2[i % a2.length]? = some b ∧ fn a b = .ok v := by
  intro i hi
  unfold mapply2 at h
  obtain ⟨t, w, hb⟩ := forLoop_ok_visits _ _ _ _ _ h i (Nat.zero_le i) (by omega)
  exact mapply2_body_inv fn a1 a2 _ i t w hb

theorem mapply2_first_error {D ε : Type} [OfScientific D] (fn : D → D → Except ε D)
    (a1 a2 : List D) (k : Nat) (e : ε) (hk : k < max a1.length a2.length)
    (hfail : ∃ a b, a1[k % a1.length]? = some a ∧ a2[k % a2.length]? = some b ∧
      fn a b = .error e)
    (hbefore : ∀ i, i < k →
      ∃ a b v, a1[i % a1.length]? = some a ∧ a2[i % a2.length]? = some b ∧ fn a b = .ok v) :
    mapply2 fn a1 a2 = .error (.raised e) := by
  unfold mapply2
  obtain ⟨a, b, h1, h2, h3⟩ := hfail
  refine forLoop_error_of_first _ (Failure.raised e) k
    (fun s => mapply2_body_error fn a1 a2 _ k s a b e h1 h2 h3) _ 0 _ (Nat.zero_le k)
    (by omega) ?_
  intro j _ hj t
  obtain ⟨x, y, v, hx, hy, hv⟩ := hbefore j hj
  exact ⟨t.set j v, mapply2_body_ok fn a1 a2 _ j t x y v hx hy hv⟩

theorem shape_some {D : Type} (a1 a2 : List D)
    (h : (a1 ≠ [] ∧ a2 ≠ []) ∨ (a1 = [] ∧ a2 = [])) (i : Nat)
    (hi : i < max a1.length a2.length) :
    ∃ a b, a1[i % a1.length]? = some a ∧ a2[i % a2.length]? = some b := by
  rcases h with ⟨h1, h2⟩ | ⟨h1, h2⟩
  · obtain ⟨a, ha⟩ := recycled_some a1 h1 i
    obtain ⟨b, hb⟩ := recycled_some a2 h2 i
    exact ⟨a, b, ha, hb⟩
  · subst h1; subst h2; simp at hi

/-! ## `mapply3` -/

theorem mapply3_body_ok {D ε : Type} (fn : D → D → D → Except ε D) (a1 a2 a3 : List D)
    (n i : Nat) (out : List D) (a b c v : D) (h1 : a1[i % a1.length]? = some a)
    (h2 : a2[i % a2.length]? = some b) (h3 : a3[i % a3.length]? = some c)
    (h4 : fn a b c = .ok v) :
    (do
      let x ← (rep_len a1 n).get i
      let y ← (rep_len a2 n).get i
      let z ← (rep_len a3 n).get i
      let v ← call (fn x y z)
      pure (out.set i v) : Except (Failure ε) (List D)) = .ok (out.set i v) := by
  rw [Rep_len_get_ok a1 n i a h1, Rep_len_get_ok a2 n i b h2, Rep_len_get_ok a3 n i c h3]
  simp [call, h4, bind, Except.bind, pure, Except.pure]

theorem mapply3_body_error {D ε : Type} (fn : D → D → D → Except ε D) (a1 a2 a3 : List D)
    (n i : Nat) (out : List D) (a b c : D) (e : ε) (h1 : a1[i % a1.length]? = some a)
    (h2 : a2[i % a2.length]? = some b) (h3 : a3[i % a3.length]? = some c)
    (h4 : fn a b c = .error e) :
    (do
      let x ← (rep_len a1 n).get i
      let y ← (rep_len a2 n).get i
      let z ← (rep_len a3 n).get i
      let v ← call (fn x y z)
      pure (out.set i v) : Except (Failure ε) (List D)) = .error (.raised e) := by
  rw [Rep_len_get_ok a1 n i a h1, Rep_len_get_ok a2 n i b h2, Rep_len_get_ok a3 n i c h3]
  simp [call, h4, bind, Except.bind]

theorem mapply3_body_inv {D ε : Type} (fn : D → D → D → Except ε D) (a1 a2 a3 : List D)
    (n i : Nat) (out w : List D)
    (h : (do
      let x ← (rep_len a1 n).get i
      let y ← (rep_len a2 n).get i
      let z ← (rep_len a3 n).get i
      let v ← call (fn x y z)
      pure (out.set i v) : Except (Failure ε) (List D)) = .ok w) :
    ∃ a b c v, a1[i % a1.length]? = some a ∧ a2[i % a2.length]? = some b ∧
      a3[i % a3.length]? = some c ∧ fn a b c = .ok v := by
  cases hx : ((rep_len a1 n).get i : Except (Failure ε) D) with
  | error e => simp [hx, bind, Except.bind] at h
  | ok x =>
    cases hy : ((rep_len a2 n).get i : Except (Failure ε) D) with
    | error e => simp [hx, hy, bind, Except.bind] at h
    | ok y =>
      cases hz : ((rep_len a3 n).get i : Except (Failure ε) D) with
      | error e => simp [hx, hy, hz, bind, Except.bind] at h
      | ok z =>
        cases hv : fn x y z with
        | error e => simp [hx, hy, hz, hv, bind, Except.bind, call] at h
        | ok v =>
          exact ⟨x, y, z, v, (Rep_len_get_ok_iff a1 n i x).mp hx,
            (Rep_len_get_ok_iff a2 n i y).mp hy, (Rep_len_get_ok_iff a3 n i z).mp hz, hv⟩

theorem mapply3_returns {D ε : Type} [OfScientific D] (fn : D → D → D → Except ε D)
    (a1 a2 a3 : List D) (val : Nat → D)
    (h : ∀ i, i < max a1.length (max a2.length a3.length) →
      ∃ a b c, a1[i % a1.length]? = some a ∧ a2[i % a2.length]? = some b ∧
        a3[i % a3.length]? = some c ∧ fn a b c = .ok (val i)) :
    ∃ out, mapply3 fn a1 a2 a3 = .ok out ∧
      out.length = max a1.length (max a2.length a3.length) ∧
      ∀ i, i < max a1.length (max a2.length a3.length) → out[i]? = some (val i) := by
  unfold mapply3
  obtain ⟨u, hu, hlen, hval⟩ := forLoop_invariant
    (fun i out => do
      let x ← (rep_len a1 (max a1.length (max a2.length a3.length))).get i
      let y ← (rep_len a2 (max a1.length (max a2.length a3.length))).get i
      let z ← (rep_len a3 (max a1.length (max a2.length a3.length))).get i
      let v ← call (fn x y z)
      pure (out.set i v) : Nat → List D → Except (Failure ε) (List D))
    (fun j out => out.length = max a1.length (max a2.length a3.length) ∧
      ∀ m, m < j → out[m]? = some (val m))
    (max a1.length (max a2.length a3.length)) 0
    (List.replicate (max a1.length (max a2.length a3.length)) 0.0)
    ⟨by simp, fun m hm => absurd hm (Nat.not_lt_zero m)⟩
    (by
      intro j _ hj t ht
      obtain ⟨a, b, c, h1, h2, h3, h4⟩ := h j (by omega)
      refine ⟨t.set j (val j), mapply3_body_ok fn a1 a2 a3 _ j t a b c (val j) h1 h2 h3 h4,
        ?_, ?_⟩
      · simpa using ht.1
      · intro m hm
        rcases Nat.eq_or_lt_of_le (Nat.le_of_lt_succ hm) with hmj | hmj
        · subst hmj
          exact List.getElem?_set_self (by omega)
        · rw [List.getElem?_set_ne (by omega)]
          exact ht.2 m hmj)
  refine ⟨u, hu, hlen, ?_⟩
  intro i hi
  exact hval i (by omega)

theorem mapply3_ok_visits {D ε : Type} [OfScientific D] (fn : D → D → D → Except ε D)
    (a1 a2 a3 out : List D) (h : mapply3 fn a1 a2 a3 = .ok out) :
    ∀ i, i < max a1.length (max a2.length a3.length) →
      ∃ a b c v, a1[i % a1.length]? = some a ∧ a2[i % a2.length]? = some b ∧
        a3[i % a3.length]? = some c ∧ fn a b c = .ok v := by
  intro i hi
  unfold mapply3 at h
  obtain ⟨t, w, hb⟩ := forLoop_ok_visits _ _ _ _ _ h i (Nat.zero_le i) (by omega)
  exact mapply3_body_inv fn a1 a2 a3 _ i t w hb

theorem mapply3_first_error {D ε : Type} [OfScientific D] (fn : D → D → D → Except ε D)
    (a1 a2 a3 : List D) (k : Nat) (e : ε) (hk : k < max a1.length (max a2.length a3.length))
    (hfail : ∃ a b c, a1[k % a1.length]? = some a ∧ a2[k % a2.length]? = some b ∧
      a3[k % a3.length]? = some c ∧ fn a b c = .error e)
    (hbefore : ∀ i, i < k →
      ∃ a b c v, a1[i % a1.length]? = some a ∧ a2[i % a2.length]? = some b ∧
        a3[i % a3.length]? = some c ∧ fn a b c = .ok v) :
    mapply3 fn a1 a2 a3 = .error (.raised e) := by
  unfold mapply3
  obtain ⟨a, b, c, h1, h2, h3, h4⟩ := hfail
  refine forLoop_error_of_first _ (Failure.raised e) k
    (fun s => mapply3_body_error fn a1 a2 a3 _ k s a b c e h1 h2 h3 h4) _ 0 _ (Nat.zero_le k)
    (by omega) ?_
  intro j _ hj t
  obtain ⟨x, y, z, v, hx, hy, hz, hv⟩ := hbefore j hj
  exact ⟨t.set j v, mapply3_body_ok fn a1 a2 a3 _ j t x y z v hx hy hz hv⟩

/-! ## The loop of `bernoulli_confidence_interval` -/

theorem bernoulli_body_ok {D ε : Type} (core : D → D → Except ε (D × D)) (a1 a2 : List D)
    (n i : Nat) (st : List D × List D) (a b : D) (v : D × D)
    (h1 : a1[i % a1.length]? = some a) (h2 : a2[i % a2.length]? = some b)
    (h3 : core a b = .ok v) :
    (do
      let x ← (rep_len a1 n).get i
      let y ← (rep_len a2 n).get i
      let bounds ← call (core x y)
      pure (st.1.set i bounds.1, st.2.set i bounds.2) :
        Except (Failure ε) (List D × List D)) = .ok (st.1.set i v.1, st.2.set i v.2) := by
  rw [Rep_len_get_ok a1 n i a h1, Rep_len_get_ok a2 n i b h2]
  simp [call, h3, bind, Except.bind, pure, Except.pure]

theorem bernoulli_body_error {D ε : Type} (core : D → D → Except ε (D × D)) (a1 a2 : List D)
    (n i : Nat) (st : List D × List D) (a b : D) (e : ε)
    (h1 : a1[i % a1.length]? = some a) (h2 : a2[i % a2.length]? = some b)
    (h3 : core a b = .error e) :
    (do
      let x ← (rep_len a1 n).get i
      let y ← (rep_len a2 n).get i
      let bounds ← call (core x y)
      pure (st.1.set i bounds.1, st.2.set i bounds.2) :
        Except (Failure ε) (List D × List D)) = .error (.raised e) := by
  rw [Rep_len_get_ok a1 n i a h1, Rep_len_get_ok a2 n i b h2]
  simp [call, h3, bind, Except.bind]

theorem bernoulli_body_inv {D ε : Type} (core : D → D → Except ε (D × D)) (a1 a2 : List D)
    (n i : Nat) (st w : List D × List D)
    (h : (do
      let x ← (rep_len a1 n).get i
      let y ← (rep_len a2 n).get i
      let bounds ← call (core x y)
      pure (st.1.set i bounds.1, st.2.set i bounds.2) :
        Except (Failure ε) (List D × List D)) = .ok w) :
    ∃ a b v, a1[i % a1.length]? = some a ∧ a2[i % a2.length]? = some b ∧ core a b = .ok v := by
  cases hx : ((rep_len a1 n).get i : Except (Failure ε) D) with
  | error e => simp [hx, bind, Except.bind] at h
  | ok x =>
    cases hy : ((rep_len a2 n).get i : Except (Failure ε) D) with
    | error e => simp [hx, hy, bind, Except.bind] at h
    | ok y =>
      cases hv : core x y with
      | error e => simp [hx, hy, hv, bind, Except.bind, call] at h
      | ok v =>
        exact ⟨x, y, v, (Rep_len_get_ok_iff a1 n i x).mp hx,
          (Rep_len_get_ok_iff a2 n i y).mp hy, hv⟩

theorem bernoulli_returns {D ε : Type} [OfScientific D]
    (core : D → D → D → D → D → Except ε (D × D)) (a1 a2 : List D) (alpha t_opt : D)
    (alpha_opt : Option D) (val : Nat → D × D)
    (h : ∀ i, i < max a1.length a2.length →
      ∃ a b, a1[i % a1.length]? = some a ∧ a2[i % a2.length]? = some b ∧
        core a b alpha t_opt (alpha_opt.getD 0.05) = .ok (val i)) :
    ∃ lower upper, bernoulli_confidence_interval core a1 a2 alpha t_opt alpha_opt =
        .ok [("lower", lower), ("upper", upper)] ∧
      lower.length = max a1.length a2.length ∧ upper.length = max a1.length a2.length ∧
      ∀ i, i < max a1.length a2.length →
        lower[i]? = some (val i).1 ∧ upper[i]? = some (val i).2 := by
  unfold bernoulli_confidence_interval
  obtain ⟨u, hu, ⟨hlen1, hlen2⟩, hval⟩ := forLoop_invariant
    (fun i (st : List D × List D) => do
      let x ← (rep_len a1 (max a1.length a2.length)).get i
      let y ← (rep_len a2 (max a1.length a2.length)).get i
      let bounds ← call (core x y alpha t_opt (alpha_opt.getD 0.05))
      pure (st.1.set i bounds.1, st.2.set i bounds.2) :
        Nat → List D × List D → Except (Failure ε) (List D × List D))
    (fun j st => (st.1.length = max a1.length a2.length ∧
        st.2.length = max a1.length a2.length) ∧
      ∀ m, m < j → st.1[m]? = some (val m).1 ∧ st.2[m]? = some (val m).2)
    (max a1.length a2.length) 0
    (List.replicate (max a1.length a2.length) 0.0, List.replicate (max a1.length a2.length) 0.0)
    ⟨by simp, fun m hm => absurd hm (Nat.not_lt_zero m)⟩
    (by
      intro j _ hj t ht
      obtain ⟨a, b, h1, h2, h3⟩ := h j (by omega)
      refine ⟨(t.1.set j (val j).1, t.2.set j (val j).2),
        bernoulli_body_ok (fun x y => core x y alpha t_opt (alpha_opt.getD 0.05))
          a1 a2 _ j t a b (val j) h1 h2 h3, ?_, ?_⟩
      · simpa using ht.1
      · intro m hm
        rcases Nat.eq_or_lt_of_le (Nat.le_of_lt_succ hm) with hmj | hmj
        · subst hmj
          exact ⟨List.getElem?_set_self (by have := ht.1.1; omega),
            List.getElem?_set_self (by have := ht.1.2; omega)⟩
        · simp only []
          rw [List.getElem?_set_ne (by omega), List.getElem?_set_ne (by omega)]
          exact ht.2 m hmj)
  refine ⟨u.1, u.2, ?_, hlen1, hlen2, ?_⟩
  · simp only [hu]
  · intro i hi
    exact hval i (by omega)

theorem bernoulli_ok_visits {D ε : Type} [OfScientific D]
    (core : D → D → D → D → D → Except ε (D × D)) (a1 a2 : List D) (alpha t_opt : D)
    (alpha_opt : Option D) (res : List (String × List D))
    (h : bernoulli_confidence_interval core a1 a2 alpha t_opt alpha_opt = .ok res) :
    ∀ i, i < max a1.length a2.length →
      ∃ a b v, a1[i % a1.length]? = some a ∧ a2[i % a2.length]? = some b ∧
        core a b alpha t_opt (alpha_opt.getD 0.05) = .ok v := by
  intro i hi
  unfold bernoulli_confidence_interval at h
  simp only [] at h
  split at h
  · rename_i st hst
    obtain ⟨t, w, hb⟩ := forLoop_ok_visits _ _ _ _ _ hst i (Nat.zero_le i) (by omega)
    exact bernoulli_body_inv (fun x y => core x y alpha t_opt (alpha_opt.getD 0.05))
      a1 a2 _ i t w hb
  · simp at h

theorem bernoulli_first_error {D ε : Type} [OfScientific D]
    (core : D → D → D → D → D → Except ε (D × D)) (a1 a2 : List D) (alpha t_opt : D)
    (alpha_opt : Option D) (k : Nat) (e : ε) (hk : k < max a1.length a2.length)
    (hfail : ∃ a b, a1[k % a1.length]? = some a ∧ a2[k % a2.length]? = some b ∧
      core a b alpha t_opt (alpha_opt.getD 0.05) = .error e)
    (hbefore : ∀ i, i < k →
      ∃ a b v, a1[i % a1.length]? = some a ∧ a2[i % a2.length]? = some b ∧
        core a b alpha t_opt (alpha_opt.getD 0.05) = .ok v) :
    bernoulli_confidence_interval core a1 a2 alpha t_opt alpha_opt = .error (.raised e) := by
  unfold bernoulli_confidence_interval
  obtain ⟨a, b, h1, h2, h3⟩ := hfail
  have key := forLoop_error_of_first
    (fun i (st : List D × List D) => do
      let x ← (rep_len a1 (max a1.length a2.length)).get i
      let y ← (rep_len a2 (max a1.length a2.length)).get i
      let bounds ← call (core x y alpha t_opt (alpha_opt.getD 0.05))
      pure (st.1.set i bounds.1, st.2.set i bounds.2) :
        Nat → List D × List D → Except (Failure ε) (List D × List D))
    (Failure.raised e) k
    (fun s => bernoulli_body_error (fun x y => core x y alpha t_opt (alpha_opt.getD 0.05))
      a1 a2 _ k s a b e h1 h2 h3) (max a1.length a2.length) 0
    (List.replicate (max a1.length a2.length) 0.0, List.replicate (max a1.length a2.length) 0.0)
    (Nat.zero_le k) (by omega)
    (by
      intro j _ hj t
      obtain ⟨x, y, v, hx, hy, hv⟩ := hbefore j hj
      exact ⟨_, bernoulli_body_ok (fun x y => core x y alpha t_opt (alpha_opt.getD 0.05))
        a1 a2 _ j t x y v hx hy hv⟩)
  simp only [key]

/-! ## Total scalar functions -/

theorem shape3_some {D : Type} (a1 a2 a3 : List D)
    (h : (a1 ≠ [] ∧ a2 ≠ [] ∧ a3 ≠ []) ∨ (a1 = [] ∧ a2 = [] ∧ a3 = [])) (i : Nat)
    (hi : i < max a1.length (max a2.length a3.length)) :
    ∃ a b c, a1[i % a1.length]? = some a ∧ a2[i % a2.length]? = some b ∧
      a3[i % a3.length]? = some c := by
  rcases h with ⟨h1, h2, h3⟩ | ⟨h1, h2, h3⟩
  · obtain ⟨a, ha⟩ := recycled_some a1 h1 i
    obtain ⟨b, hb⟩ := recycled_some a2 h2 i
    obtain ⟨c, hc⟩ := recycled_some a3 h3 i
    exact ⟨a, b, c, ha, hb, hc⟩
  · subst h1; subst h2; subst h3; simp at hi

theorem mapply2_total {D ε : Type} [OfScientific D] (fn : D → D → D)
    (arg1 arg2 : List D) (h : (arg1 ≠ [] ∧ arg2 ≠ []) ∨ (arg1 = [] ∧ arg2 = [])) :
    ∃ out, mapply2 (fun a b => (Except.ok (fn a b) : Except ε D)) arg1 arg2 = .ok out ∧
      out.length = max arg1.length arg2.length ∧
      ∀ i, i < max arg1.length arg2.length →
        ∃ a b, arg1[i % arg1.length]? = some a ∧ arg2[i % arg2.length]? = some b ∧
          out[i]? = some (fn a b) := by
  have hex : ∀ i, i < max arg1.length arg2.length →
      ∃ a b, arg1[i % arg1.length]? = some a ∧ arg2[i % arg2.length]? = some b :=
    fun i hi => shape_some arg1 arg2 h i hi
  obtain ⟨out, hout, hlen, hval⟩ := mapply2_returns
    (fun a b => (Except.ok (fn a b) : Except ε D)) arg1 arg2
    (fun i => match arg1[i % arg1.length]?, arg2[i % arg2.length]? with
      | some a, some b => fn a b
      | _, _ => 0.0)
    (by
      intro i hi
      obtain ⟨a, b, ha, hb⟩ := hex i hi
      exact ⟨a, b, ha, hb, by simp [ha, hb]⟩)
  refine ⟨out, hout, hlen, ?_⟩
  intro i hi
  obtain ⟨a, b, ha, hb⟩ := hex i hi
  refine ⟨a, b, ha, hb, ?_⟩
  rw [hval i hi]
  simp [ha, hb]

theorem mapply3_total {D ε : Type} [OfScientific D] (fn : D → D → D → D)
    (arg1 arg2 arg3 : List D)
    (h : (arg1 ≠ [] ∧ arg2 ≠ [] ∧ arg3 ≠ []) ∨ (arg1 = [] ∧ arg2 = [] ∧ arg3 = [])) :
    ∃ out, mapply3 (fun a b c => (Except.ok (fn a b c) : Except ε D)) arg1 arg2 arg3 =
        .ok out ∧
      out.length = max arg1.length (max arg2.length arg3.length) ∧
      ∀ i, i < max arg1.length (max arg2.length arg3.length) →
        ∃ a b c, arg1[i % arg1.length]? = some a ∧ arg2[i % arg2.length]? = some b ∧
          arg3[i % arg3.length]? = some c ∧ out[i]? = some (fn a b c) := by
  have hex := fun i hi => shape3_some arg1 arg2 arg3 h i hi
  obtain ⟨out, hout, hlen, hval⟩ := mapply3_returns
    (fun a b c => (Except.ok (fn a b c) : Except ε D)) arg1 arg2 arg3
    (fun i => match arg1[i % arg1.length]?, arg2[i % arg2.length]?,
        arg3[i % arg3.length]? with
      | some a, some b, some c => fn a b c
      | _, _, _ => 0.0)
    (by
      intro i hi
      obtain ⟨a, b, c, ha, hb, hc⟩ := hex i hi
      exact ⟨a, b, c, ha, hb, hc, by simp [ha, hb, hc]⟩)
  refine ⟨out, hout, hlen, ?_⟩
  intro i hi
  obtain ⟨a, b, c, ha, hb, hc⟩ := hex i hi
  refine ⟨a, b, c, ha, hb, hc, ?_⟩
  rw [hval i hi]
  simp [ha, hb, hc]

theorem mapply2_eq_of_getElem {D ε : Type} [OfScientific D] (fn : D → D → Except ε D)
    (a1 a2 target : List D) (hlen : target.length = max a1.length a2.length)
    (h : ∀ i, i < max a1.length a2.length →
      ∃ a b v, a1[i % a1.length]? = some a ∧ a2[i % a2.length]? = some b ∧
        fn a b = .ok v ∧ target[i]? = some v) :
    mapply2 fn a1 a2 = .ok target := by
  obtain ⟨out, hout, hl, hval⟩ := mapply2_returns fn a1 a2 (fun i => target.getD i 0.0)
    (by
      intro i hi
      obtain ⟨a, b, v, ha, hb, hv, ht⟩ := h i hi
      exact ⟨a, b, ha, hb, by simp [List.getD, ht, hv]⟩)
  rw [hout]
  congr 1
  apply List.ext_getElem?
  intro i
  by_cases hi : i < max a1.length a2.length
  · obtain ⟨a, b, v, ha, hb, hv, ht⟩ := h i hi
    rw [hval i hi, ht]
    simp [List.getD, ht]
  · rw [List.getElem?_eq_none (by omega), List.getElem?_eq_none (by omega)]

theorem mapply2_undefined {D ε : Type} [OfScientific D] (fn : D → D → Except ε D)
    (a1 a2 : List D) (h : (a1 = [] ∧ a2 ≠ []) ∨ (a1 ≠ [] ∧ a2 = [])) :
    mapply2 fn a1 a2 = .error .undefined := by
  rcases h with ⟨h1, h2⟩ | ⟨h1, h2⟩
  · subst h1
    cases a2 with
    | nil => exact absurd rfl h2
    | cons y ys =>
      simp [mapply2, forLoop, rep_len, Rep_len.get, bind, Except.bind]
  · subst h2
    cases a1 with
    | nil => exact absurd rfl h1
    | cons x xs =>
      simp [mapply2, forLoop, rep_len, Rep_len.get, bind, Except.bind]

theorem exists_first_failure {ε : Type} (Ok : Nat → Prop) (Err : Nat → ε → Prop) :
    ∀ n : Nat, (∀ i, i < n → Ok i ∨ ∃ e, Err i e) →
      (∀ i, i < n → Ok i) ∨ ∃ k e, k < n ∧ Err k e ∧ ∀ i, i < k → Ok i := by
  intro n
  induction n with
  | zero => intro _; exact Or.inl (fun i hi => absurd hi (Nat.not_lt_zero i))
  | succ n ih =>
    intro h
    rcases ih (fun i hi => h i (by omega)) with hall | ⟨k, e, hk, hek, hbefore⟩
    · rcases h n (by omega) with hn | ⟨e, he⟩
      · left
        intro i hi
        rcases Nat.eq_or_lt_of_le (Nat.le_of_lt_succ hi) with hin | hin
        · subst hin; exact hn
        · exact hall i hin
      · exact Or.inr ⟨n, e, by omega, he, hall⟩
    · exact Or.inr ⟨k, e, by omega, hek, hbefore⟩

/-! ## Calls that succeed on every index -/

theorem mapply2_returns_of_ok {D ε : Type} [OfScientific D] (fn : D → D → Except ε D)
    (a1 a2 : List D)
    (h : ∀ i, i < max a1.length a2.length →
      ∃ a b v, a1[i % a1.length]? = some a ∧ a2[i % a2.length]? = some b ∧ fn a b = .ok v) :
    ∃ out, mapply2 fn a1 a2 = .ok out ∧ out.length = max a1.length a2.length ∧
      ∀ i, i < max a1.length a2.length →
        ∃ a b v, a1[i % a1.length]? = some a ∧ a2[i % a2.length]? = some b ∧
          fn a b = .ok v ∧ out[i]? = some v := by
  haveI : Inhabited D := ⟨0.0⟩
  have h2 : ∀ i, i < max a1.length a2.length →
      ∃ v, ∃ a b, a1[i % a1.length]? = some a ∧ a2[i % a2.length]? = some b ∧
        fn a b = .ok v := by
    intro i hi
    obtain ⟨a, b, v, ha, hb, hv⟩ := h i hi
    exact ⟨v, a, b, ha, hb, hv⟩
  choose! val hval using h2
  obtain ⟨out, hout, hlen, hget⟩ := mapply2_returns fn a1 a2 val hval
  refine ⟨out, hout, hlen, ?_⟩
  intro i hi
  obtain ⟨a, b, ha, hb, hv⟩ := hval i hi
  exact ⟨a, b, val i, ha, hb, hv, hget i hi⟩

theorem mapply3_returns_of_ok {D ε : Type} [OfScientific D] (fn : D → D → D → Except ε D)
    (a1 a2 a3 : List D)
    (h : ∀ i, i < max a1.length (max a2.length a3.length) →
      ∃ a b c v, a1[i % a1.length]? = some a ∧ a2[i % a2.length]? = some b ∧
        a3[i % a3.length]? = some c ∧ fn a b c = .ok v) :
    ∃ out, mapply3 fn a1 a2 a3 = .ok out := by
  haveI : Inhabited D := ⟨0.0⟩
  have h2 : ∀ i, i < max a1.length (max a2.length a3.length) →
      ∃ v, ∃ a b c, a1[i % a1.length]? = some a ∧ a2[i % a2.length]? = some b ∧
        a3[i % a3.length]? = some c ∧ fn a b c = .ok v := by
    intro i hi
    obtain ⟨a, b, c, v, ha, hb, hc, hv⟩ := h i hi
    exact ⟨v, a, b, c, ha, hb, hc, hv⟩
  choose! val hval using h2
  obtain ⟨out, hout, _, _⟩ := mapply3_returns fn a1 a2 a3 val hval
  exact ⟨out, hout⟩

theorem bernoulli_returns_of_ok {D ε : Type} [OfScientific D]
    (core : D → D → D → D → D → Except ε (D × D)) (a1 a2 : List D) (alpha t_opt : D)
    (alpha_opt : Option D)
    (h : ∀ i, i < max a1.length a2.length →
      ∃ a b v, a1[i % a1.length]? = some a ∧ a2[i % a2.length]? = some b ∧
        core a b alpha t_opt (alpha_opt.getD 0.05) = .ok v) :
    ∃ res, bernoulli_confidence_interval core a1 a2 alpha t_opt alpha_opt = .ok res := by
  haveI : Inhabited D := ⟨0.0⟩
  have h2 : ∀ i, i < max a1.length a2.length →
      ∃ v, ∃ a b, a1[i % a1.length]? = some a ∧ a2[i % a2.length]? = some b ∧
        core a b alpha t_opt (alpha_opt.getD 0.05) = .ok v := by
    intro i hi
    obtain ⟨a, b, v, ha, hb, hv⟩ := h i hi
    exact ⟨v, a, b, ha, hb, hv⟩
  choose! val hval using h2
  obtain ⟨lower, upper, hres, _⟩ :=
    bernoulli_returns core a1 a2 alpha t_opt alpha_opt val hval
  exact ⟨_, hres⟩

theorem mapply2_ok_or_first_error {D ε : Type} [OfScientific D] (fn : D → D → Except ε D)
    (a1 a2 : List D) (hs : (a1 ≠ [] ∧ a2 ≠ []) ∨ (a1 = [] ∧ a2 = [])) :
    (∀ i, i < max a1.length a2.length →
      ∃ a b v, a1[i % a1.length]? = some a ∧ a2[i % a2.length]? = some b ∧ fn a b = .ok v) ∨
    ∃ k e, k < max a1.length a2.length ∧
      (∃ a b, a1[k % a1.length]? = some a ∧ a2[k % a2.length]? = some b ∧
        fn a b = .error e) ∧
      ∀ i, i < k →
        ∃ a b v, a1[i % a1.length]? = some a ∧ a2[i % a2.length]? = some b ∧ fn a b = .ok v := by
  apply exists_first_failure
    (fun i => ∃ a b v, a1[i % a1.length]? = some a ∧ a2[i % a2.length]? = some b ∧
      fn a b = .ok v)
    (fun i e => ∃ a b, a1[i % a1.length]? = some a ∧ a2[i % a2.length]? = some b ∧
      fn a b = .error e)
  intro i hi
  obtain ⟨a, b, ha, hb⟩ := shape_some a1 a2 hs i hi
  cases hv : fn a b with
  | ok v => exact Or.inl ⟨a, b, v, ha, hb, hv⟩
  | error e => exact Or.inr ⟨e, a, b, ha, hb, hv⟩

theorem mapply3_ok_or_first_error {D ε : Type} [OfScientific D]
    (fn : D → D → D → Except ε D) (a1 a2 a3 : List D)
    (hs : (a1 ≠ [] ∧ a2 ≠ [] ∧ a3 ≠ []) ∨ (a1 = [] ∧ a2 = [] ∧ a3 = [])) :
    (∀ i, i < max a1.length (max a2.length a3.length) →
      ∃ a b c v, a1[i % a1.length]? = some a ∧ a2[i % a2.length]? = some b ∧
        a3[i % a3.length]? = some c ∧ fn a b c = .ok v) ∨
    ∃ k e, k < max a1.length (max a2.length a3.length) ∧
      (∃ a b c, a1[k % a1.length]? = some a ∧ a2[k % a2.length]? = some b ∧
        a3[k % a3.length]? = some c ∧ fn a b c = .error e) ∧
      ∀ i, i < k →
        ∃ a b c v, a1[i % a1.length]? = some a ∧ a2[i % a2.length]? = some b ∧
          a3[i % a3.length]? = some c ∧ fn a b c = .ok v := by
  apply exists_first_failure
    (fun i => ∃ a b c v, a1[i % a1.length]? = some a ∧ a2[i % a2.length]? = some b ∧
      a3[i % a3.length]? = some c ∧ fn a b c = .ok v)
    (fun i e => ∃ a b c, a1[i % a1.length]? = some a ∧ a2[i % a2.length]? = some b ∧
      a3[i % a3.length]? = some c ∧ fn a b c = .error e)
  intro i hi
  obtain ⟨a, b, c, ha, hb, hc⟩ := shape3_some a1 a2 a3 hs i hi
  cases hv : fn a b c with
  | ok v => exact Or.inl ⟨a, b, c, v, ha, hb, hc, hv⟩
  | error e => exact Or.inr ⟨e, a, b, c, ha, hb, hc, hv⟩

theorem bernoulli_ok_or_first_error {D ε : Type} [OfScientific D]
    (core : D → D → D → D → D → Except ε (D × D)) (a1 a2 : List D) (alpha t_opt : D)
    (alpha_opt : Option D) (hs : (a1 ≠ [] ∧ a2 ≠ []) ∨ (a1 = [] ∧ a2 = [])) :
    (∀ i, i < max a1.length a2.length →
      ∃ a b v, a1[i % a1.length]? = some a ∧ a2[i % a2.length]? = some b ∧
        core a b alpha t_opt (alpha_opt.getD 0.05) = .ok v) ∨
    ∃ k e, k < max a1.length a2.length ∧
      (∃ a b, a1[k % a1.length]? = some a ∧ a2[k % a2.length]? = some b ∧
        core a b alpha t_opt (alpha_opt.getD 0.05) = .error e) ∧
      ∀ i, i < k →
        ∃ a b v, a1[i % a1.length]? = some a ∧ a2[i % a2.length]? = some b ∧
          core a b alpha t_opt (alpha_opt.getD 0.05) = .ok v := by
  apply exists_first_failure
    (fun i => ∃ a b v, a1[i % a1.length]? = some a ∧ a2[i % a2.length]? = some b ∧
      core a b alpha t_opt (alpha_opt.getD 0.05) = .ok v)
    (fun i e => ∃ a b, a1[i % a1.length]? = some a ∧ a2[i % a2.length]? = some b ∧
      core a b alpha t_opt (alpha_opt.getD 0.05) = .error e)
  intro i hi
  obtain ⟨a, b, ha, hb⟩ := shape_some a1 a2 hs i hi
  cases hv : core a b alpha t_opt (alpha_opt.getD 0.05) with
  | ok v => exact Or.inl ⟨a, b, v, ha, hb, hv⟩
  | error e => exact Or.inr ⟨e, a, b, ha, hb, hv⟩

/-! ## Results on the functions of the interface -/

/-- C1: for every scalar function `fn` and argument vectors that are both
non-empty or both empty, `mapply2` returns a vector of length
`n = max |arg1| |arg2|` whose element `i` is `fn (arg1[i mod |arg1|]) (arg2[i mod |arg2|])`;
with lengths 3 and 2 the shorter vector is cycled although 3 is no multiple
of 2, and a vector of length 1 is broadcast (the documented call
`normal_mixture_bound(c(100, 200), .05, 100)`). -/
theorem C1_mapply2_recycling {D ε : Type} [OfScientific D] (fn : D → D → D)
    (arg1 arg2 : List D) (h : (arg1 ≠ [] ∧ arg2 ≠ []) ∨ (arg1 = [] ∧ arg2 = [])) :
    (∃ out, mapply2 (fun a b => (Except.ok (fn a b) : Except ε D)) arg1 arg2 = .ok out ∧
      out.length = max arg1.length arg2.length ∧
      ∀ i, i < max arg1.length arg2.length →
        ∃ a b, arg1[i % arg1.length]? = some a ∧ arg2[i % arg2.length]? = some b ∧
          out[i]? = some (fn a b)) ∧
    (∀ a0 a1 a2 b0 b1 : D,
      mapply2 (fun a b => (Except.ok (fn a b) : Except ε D)) [a0, a1, a2] [b0, b1] =
        .ok [fn a0 b0, fn a1 b1, fn a2 b0]) ∧
    (∀ core : D → D → D → D → Bool → D,
      normal_mixture_bound (fun v a vo ao b => (Except.ok (core v a vo ao b) : Except ε D))
          [100.0, 200.0] [0.05] 100.0 none none =
        .ok [core 100.0 0.05 100.0 0.05 true, core 200.0 0.05 100.0 0.05 true]) := by
  refine ⟨mapply2_total fn arg1 arg2 h, ?_, ?_⟩
  · intro a0 a1 a2 b0 b1
    simp [mapply2, forLoop, rep_len, Rep_len.get, call, bind, Except.bind, pure, Except.pure]
  · intro core
    simp [normal_mixture_bound, mapply2, forLoop, rep_len, Rep_len.get, call, bind, Except.bind,
      pure, Except.pure]

/-- Instance of C1 on rational vectors of lengths 3 and 2. -/
theorem C1_mapply2_recycling_witness :
    ((([1.5, 2.5, 3.5] : List ℚ) ≠ [] ∧ ([10.0, 20.0] : List ℚ) ≠ []) ∨
      (([1.5, 2.5, 3.5] : List ℚ) = [] ∧ ([10.0, 20.0] : List ℚ) = [])) ∧
    ∃ out, mapply2 (fun a b => (Except.ok (a + b) : Except Unit ℚ))
        [1.5, 2.5, 3.5] [10.0, 20.0] = .ok out ∧
      out.length = max ([1.5, 2.5, 3.5] : List ℚ).length ([10.0, 20.0] : List ℚ).length ∧
      ∀ i, i < max ([1.5, 2.5, 3.5] : List ℚ).length ([10.0, 20.0] : List ℚ).length →
        ∃ a b, ([1.5, 2.5, 3.5] : List ℚ)[i % ([1.5, 2.5, 3.5] : List ℚ).length]? = some a ∧
          ([10.0, 20.0] : List ℚ)[i % ([10.0, 20.0] : List ℚ).length]? = some b ∧
          out[i]? = some (a + b) :=
  ⟨Or.inl ⟨List.cons_ne_nil _ _, List.cons_ne_nil _ _⟩,
    (C1_mapply2_recycling (fun a b => a + b) [1.5, 2.5, 3.5] [10.0, 20.0]
      (Or.inl ⟨List.cons_ne_nil _ _, List.cons_ne_nil _ _⟩)).1⟩

/-- C4: `bernoulli_confidence_interval` returns a list of exactly two named
elements, `lower` then `upper`; for non-empty `num_successes` and `num_trials`
both have length `n = max |num_successes| |num_trials|`, and for every `i < n`
the pair `(lower[i], upper[i])` is `(first, second)` of the scalar call on
`num_successes[i mod |num_successes|]`, `num_trials[i mod |num_trials|]`, with
`alpha`, `t_opt` and `alpha_opt` (0.05 when omitted) the same for every element. -/
theorem C4_bernoulli_confidence_interval_record {D ε : Type} [OfScientific D]
    (core : D → D → D → D → D → D × D) (num_successes num_trials : List D)
    (alpha t_opt : D) (alpha_opt : Option D)
    (h1 : num_successes ≠ []) (h2 : num_trials ≠ []) :
    ∃ lower upper,
      bernoulli_confidence_interval
          (fun x y a t ao => (Except.ok (core x y a t ao) : Except ε (D × D)))
          num_successes num_trials alpha t_opt alpha_opt =
        .ok [("lower", lower), ("upper", upper)] ∧
      lower.length = max num_successes.length num_trials.length ∧
      upper.length = max num_successes.length num_trials.length ∧
      ∀ i, i < max num_successes.length num_trials.length →
        ∃ x y, num_successes[i % num_successes.length]? = some x ∧
          num_trials[i % num_trials.length]? = some y ∧
          lower[i]? = some (core x y alpha t_opt (alpha_opt.getD 0.05)).1 ∧
          upper[i]? = some (core x y alpha t_opt (alpha_opt.getD 0.05)).2 := by
  have hex : ∀ i, ∃ x y, num_successes[i % num_successes.length]? = some x ∧
      num_trials[i % num_trials.length]? = some y := by
    intro i
    obtain ⟨x, hx⟩ := recycled_some num_successes h1 i
    obtain ⟨y, hy⟩ := recycled_some num_trials h2 i
    exact ⟨x, y, hx, hy⟩
  obtain ⟨lower, upper, hres, hl, hu, hval⟩ := bernoulli_returns
    (fun x y a t ao => (Except.ok (core x y a t ao) : Except ε (D × D)))
    num_successes num_trials alpha t_opt alpha_opt
    (fun i => match num_successes[i % num_successes.length]?,
        num_trials[i % num_trials.length]? with
      | some x, some y => core x y alpha t_opt (alpha_opt.getD 0.05)
      | _, _ => (0.0, 0.0))
    (by
      intro i _
      obtain ⟨x, y, hx, hy⟩ := hex i
      exact ⟨x, y, hx, hy, by simp [hx, hy]⟩)
  refine ⟨lower, upper, hres, hl, hu, ?_⟩
  intro i hi
  obtain ⟨x, y, hx, hy⟩ := hex i
  refine ⟨x, y, hx, hy, ?_⟩
  have := hval i hi
  simpa [hx, hy] using this

/-- Instance of C4 on the documented call
`bernoulli_confidence_interval(c(50, 500, 5000), c(100, 1000, 10000), .05, 1000)`. -/
theorem C4_bernoulli_confidence_interval_record_witness :
    (([50.0, 500.0, 5000.0] : List ℚ) ≠ [] ∧ ([100.0, 1000.0, 10000.0] : List ℚ) ≠ []) ∧
    ∃ lower upper,
      bernoulli_confidence_interval
          (fun x y a t ao => (Except.ok (x / y - a - t * ao, x / y + a) : Except Unit (ℚ × ℚ)))
          [50.0, 500.0, 5000.0] [100.0, 1000.0, 10000.0] 0.05 1000.0 none =
        .ok [("lower", lower), ("upper", upper)] ∧
      lower.length = max ([50.0, 500.0, 5000.0] : List ℚ).length
        ([100.0, 1000.0, 10000.0] : List ℚ).length ∧
      upper.length = max ([50.0, 500.0, 5000.0] : List ℚ).length
        ([100.0, 1000.0, 10000.0] : List ℚ).length ∧
      ∀ i, i < max ([50.0, 500.0, 5000.0] : List ℚ).length
          ([100.0, 1000.0, 10000.0] : List ℚ).length →
        ∃ x y, ([50.0, 500.0, 5000.0] : List ℚ)[i %
              ([50.0, 500.0, 5000.0] : List ℚ).length]? = some x ∧
          ([100.0, 1000.0, 10000.0] : List ℚ)[i %
              ([100.0, 1000.0, 10000.0] : List ℚ).length]? = some y ∧
          lower[i]? = some (x / y - 0.05 - 1000.0 * (none : Option ℚ).getD 0.05, x / y + 0.05).1 ∧
          upper[i]? = some (x / y - 0.05 - 1000.0 * (none : Option ℚ).getD 0.05, x / y + 0.05).2 :=
  ⟨⟨List.cons_ne_nil _ _, List.cons_ne_nil _ _⟩,
    C4_bernoulli_confidence_interval_record (fun x y a t ao => (x / y - a - t * ao, x / y + a))
      [50.0, 500.0, 5000.0] [100.0, 1000.0, 10000.0] 0.05 1000.0 none
      (List.cons_ne_nil _ _) (List.cons_ne_nil _ _)⟩

/-- C5: for non-empty `quantile_p`, `t`, `alpha`, `double_stitching_bound`
returns a vector of length `n = max |quantile_p| |t| |alpha|` whose element `i`
is the scalar call on `quantile_p[i mod |quantile_p|]`, `t[i mod |t|]`,
`alpha[i mod |alpha|]`, in this order, followed by `t_opt`, `delta`, `s`, `eta`
(the declared defaults 0.5, 1.4, 2 where omitted). -/
theorem C5_double_stitching_bound_recycling {D ε : Type} [OfScientific D]
    (core : D → D → D → D → D → D → D → D) (quantile_p t alpha : List D) (t_opt : D)
    (delta s eta : Option D) (h1 : quantile_p ≠ []) (h2 : t ≠ []) (h3 : alpha ≠ []) :
    ∃ out,
      double_stitching_bound
          (fun q x a o d r e => (Except.ok (core q x a o d r e) : Except ε D))
          quantile_p t alpha t_opt delta s eta = .ok out ∧
      out.length = max quantile_p.length (max t.length alpha.length) ∧
      ∀ i, i < max quantile_p.length (max t.length alpha.length) →
        ∃ q x a, quantile_p[i % quantile_p.length]? = some q ∧ t[i % t.length]? = some x ∧
          alpha[i % alpha.length]? = some a ∧
          out[i]? = some (core q x a t_opt (delta.getD 0.5) (s.getD 1.4) (eta.getD 2.0)) :=
  mapply3_total
    (fun q x a => core q x a t_opt (delta.getD 0.5) (s.getD 1.4) (eta.getD 2.0))
    quantile_p t alpha (Or.inl ⟨h1, h2, h3⟩)

/-- Instance of C5 on the documented call
`double_stitching_bound(c(.1, .5, .9), 1000, .05, 100)`. -/
theorem C5_double_stitching_bound_recycling_witness :
    (([0.1, 0.5, 0.9] : List ℚ) ≠ [] ∧ ([1000.0] : List ℚ) ≠ [] ∧ ([0.05] : List ℚ) ≠ []) ∧
    ∃ out,
      double_stitching_bound
          (fun q x a o d r e => (Except.ok (q + x * a + o * d + r * e) : Except Unit ℚ))
          [0.1, 0.5, 0.9] [1000.0] [0.05] 100.0 none none none = .ok out ∧
      out.length = max ([0.1, 0.5, 0.9] : List ℚ).length
        (max ([1000.0] : List ℚ).length ([0.05] : List ℚ).length) ∧
      ∀ i, i < max ([0.1, 0.5, 0.9] : List ℚ).length
          (max ([1000.0] : List ℚ).length ([0.05] : List ℚ).length) →
        ∃ q x a, ([0.1, 0.5, 0.9] : List ℚ)[i % ([0.1, 0.5, 0.9] : List ℚ).length]? = some q ∧
          ([1000.0] : List ℚ)[i % ([1000.0] : List ℚ).length]? = some x ∧
          ([0.05] : List ℚ)[i % ([0.05] : List ℚ).length]? = some a ∧
          out[i]? = some (q + x * a + 100.0 * (none : Option ℚ).getD 0.5 +
            (none : Option ℚ).getD 1.4 * (none : Option ℚ).getD 2.0) :=
  ⟨⟨List.cons_ne_nil _ _, List.cons_ne_nil _ _, List.cons_ne_nil _ _⟩,
    C5_double_stitching_bound_recycling (fun q x a o d r e => q + x * a + o * d + r * e)
      [0.1, 0.5, 0.9] [1000.0] [0.05] 100.0 none none none
      (List.cons_ne_nil _ _) (List.cons_ne_nil _ _) (List.cons_ne_nil _ _)⟩

/-- C6 fails as stated: the calls `mapply2 rejectsZero [1, 2] [5]` and
`mapply2 rejectsZero [0, 2] [5]` have vectors of the same lengths which agree
at the recycled positions of index 1, yet the first returns `[6, 7]`, with
output 7 at index 1, and the second fails as a whole on its element 0 and has
no output at index 1. -/
theorem C6_counterexample :
    ([1, 2] : List ℚ).length = ([0, 2] : List ℚ).length ∧
    ([1, 2] : List ℚ)[1 % ([1, 2] : List ℚ).length]? =
      ([0, 2] : List ℚ)[1 % ([0, 2] : List ℚ).length]? ∧
    mapply2 rejectsZero [1, 2] [5] = .ok [6, 7] ∧
    mapply2 rejectsZero [0, 2] [5] = .error (.raised "DomainError") ∧
    Except.map (fun out => out[1]?) (mapply2 rejectsZero [1, 2] [5]) ≠
      Except.map (fun out => out[1]?) (mapply2 rejectsZero [0, 2] [5]) := by
  have h1 : mapply2 rejectsZero [1, 2] [5] = .ok [6, 7] := by
    simp [mapply2, forLoop, rep_len, Rep_len.get, call, rejectsZero, bind, Except.bind,
      pure, Except.pure]
    norm_num
  have h2 : mapply2 rejectsZero [0, 2] [5] = .error (.raised "DomainError") := by
    simp [mapply2, forLoop, rep_len, Rep_len.get, call, rejectsZero, bind, Except.bind,
      pure, Except.pure]
  refine ⟨rfl, rfl, h1, h2, ?_⟩
  rw [h1, h2]
  simp [Except.map]

/-- C6, as amended: two calls of `mapply2` with the same scalar function (the
same fixed parameters), vectors of the same lengths and the same elements at
the recycled positions `i mod |arg1|` and `i mod |arg2|` have the same `i`-th
output, whatever the other elements are, when the scalar function `fn`
returns a value on every input (then, for non-empty vectors and `i < n`, both
calls return and that output exists); for a scalar function `fnE` that may
throw, the `i`-th outputs are equal whenever both calls return. -/
theorem C6_no_cross_element_dependency {D ε : Type} [OfScientific D] (fn : D → D → D)
    (fnE : D → D → Except ε D) (arg1 arg2 other1 other2 : List D) (i : Nat)
    (hlen1 : arg1.length = other1.length) (hlen2 : arg2.length = other2.length)
    (h1 : arg1[i % arg1.length]? = other1[i % other1.length]?)
    (h2 : arg2[i % arg2.length]? = other2[i % other2.length]?) :
    Except.map (fun out => out[i]?)
        (mapply2 (fun a b => (Except.ok (fn a b) : Except ε D)) arg1 arg2) =
      Except.map (fun out => out[i]?)
        (mapply2 (fun a b => (Except.ok (fn a b) : Except ε D)) other1 other2) ∧
    (arg1 ≠ [] → arg2 ≠ [] → i < max arg1.length arg2.length →
      ∃ out1 out2 x,
        mapply2 (fun a b => (Except.ok (fn a b) : Except ε D)) arg1 arg2 = .ok out1 ∧
        mapply2 (fun a b => (Except.ok (fn a b) : Except ε D)) other1 other2 = .ok out2 ∧
        out1[i]? = some x ∧ out2[i]? = some x) ∧
    (∀ out1 out2, mapply2 fnE arg1 arg2 = .ok out1 → mapply2 fnE other1 other2 = .ok out2 →
      out1[i]? = out2[i]?) := by
  have hn1 : other1 = [] ↔ arg1 = [] := by
    rw [← List.length_eq_zero, ← hlen1, List.length_eq_zero]
  have hn2 : other2 = [] ↔ arg2 = [] := by
    rw [← List.length_eq_zero, ← hlen2, List.length_eq_zero]
  have key : ∀ hs : (arg1 ≠ [] ∧ arg2 ≠ []) ∨ (arg1 = [] ∧ arg2 = []),
      ∃ out1 out2,
        mapply2 (fun a b => (Except.ok (fn a b) : Except ε D)) arg1 arg2 = .ok out1 ∧
        mapply2 (fun a b => (Except.ok (fn a b) : Except ε D)) other1 other2 = .ok out2 ∧
        out1[i]? = out2[i]? ∧ (i < max arg1.length arg2.length → ∃ x, out1[i]? = some x) := by
    intro hs
    have hs2 : (other1 ≠ [] ∧ other2 ≠ []) ∨ (other1 = [] ∧ other2 = []) := by
      rcases hs with ⟨a, b⟩ | ⟨a, b⟩
      · exact Or.inl ⟨fun c => a (hn1.mp c), fun c => b (hn2.mp c)⟩
      · exact Or.inr ⟨hn1.mpr a, hn2.mpr b⟩
    obtain ⟨out1, ho1, hl1, hv1⟩ := @mapply2_total D ε _ fn arg1 arg2 hs
    obtain ⟨out2, ho2, hl2, hv2⟩ := @mapply2_total D ε _ fn other1 other2 hs2
    refine ⟨out1, out2, ho1, ho2, ?_, ?_⟩
    · by_cases hi : i < max arg1.length arg2.length
      · obtain ⟨a, b, ha, hb, hab⟩ := hv1 i hi
        obtain ⟨c, d, hc, hd, hcd⟩ := hv2 i (by omega)
        rw [h1, hc] at ha
        rw [h2, hd] at hb
        cases ha; cases hb
        rw [hab, hcd]
      · rw [List.getElem?_eq_none (by omega), List.getElem?_eq_none (by omega)]
    · intro hi
      obtain ⟨a, b, _, _, hab⟩ := hv1 i hi
      exact ⟨fn a b, hab⟩
  refine ⟨?_, ?_, ?_⟩
  · by_cases hs : (arg1 ≠ [] ∧ arg2 ≠ []) ∨ (arg1 = [] ∧ arg2 = [])
    · obtain ⟨out1, out2, ho1, ho2, heq, _⟩ := key hs
      rw [ho1, ho2]
      simp [Except.map, heq]
    · have hbad : (arg1 = [] ∧ arg2 ≠ []) ∨ (arg1 ≠ [] ∧ arg2 = []) := by
        by_cases e1 : arg1 = []
        · by_cases e2 : arg2 = []
          · exact absurd (Or.inr ⟨e1, e2⟩) hs
          · exact Or.inl ⟨e1, e2⟩
        · by_cases e2 : arg2 = []
          · exact Or.inr ⟨e1, e2⟩
          · exact absurd (Or.inl ⟨e1, e2⟩) hs
      have hbad2 : (other1 = [] ∧ other2 ≠ []) ∨ (other1 ≠ [] ∧ other2 = []) := by
        rcases hbad with ⟨a, b⟩ | ⟨a, b⟩
        · exact Or.inl ⟨hn1.mpr a, fun c => b (hn2.mp c)⟩
        · exact Or.inr ⟨fun c => a (hn1.mp c), hn2.mpr b⟩
      rw [mapply2_undefined _ arg1 arg2 hbad, mapply2_undefined _ other1 other2 hbad2]
  · intro e1 e2 hi
    obtain ⟨out1, out2, ho1, ho2, heq, hx⟩ := key (Or.inl ⟨e1, e2⟩)
    obtain ⟨x, hx⟩ := hx hi
    exact ⟨out1, out2, x, ho1, ho2, hx, heq ▸ hx⟩
  · intro out1 out2 ho1 ho2
    obtain ⟨r1, hr1, hl1, hv1⟩ :=
      mapply2_returns_of_ok fnE arg1 arg2 (mapply2_ok_visits fnE arg1 arg2 out1 ho1)
    obtain ⟨r2, hr2, hl2, hv2⟩ :=
      mapply2_returns_of_ok fnE other1 other2 (mapply2_ok_visits fnE other1 other2 out2 ho2)
    rw [ho1] at hr1
    rw [ho2] at hr2
    cases hr1; cases hr2
    by_cases hi : i < max arg1.length arg2.length
    · obtain ⟨a, b, v, ha, hb, hv, hab⟩ := hv1 i hi
      obtain ⟨c, d, w, hc, hd, hw, hcd⟩ := hv2 i (by omega)
      rw [h1, hc] at ha
      rw [h2, hd] at hb
      cases ha; cases hb
      rw [hv] at hw
      cases hw
      rw [hab, hcd]
    · rw [List.getElem?_eq_none (by omega), List.getElem?_eq_none (by omega)]

/-- Instance of C6: two calls that differ only in the elements other than the second. -/
theorem C6_no_cross_element_dependency_witness :
    (([1.0, 2.0, 3.0] : List ℚ).length = ([7.0, 2.0, 9.0] : List ℚ).length ∧
      ([0.05] : List ℚ).length = ([0.05] : List ℚ).length ∧
      ([1.0, 2.0, 3.0] : List ℚ)[1 % ([1.0, 2.0, 3.0] : List ℚ).length]? =
        ([7.0, 2.0, 9.0] : List ℚ)[1 % ([7.0, 2.0, 9.0] : List ℚ).length]? ∧
      ([0.05] : List ℚ)[1 % ([0.05] : List ℚ).length]? =
        ([0.05] : List ℚ)[1 % ([0.05] : List ℚ).length]?) ∧
    Except.map (fun out => out[1]?)
        (mapply2 (fun a b => (Except.ok (a * b) : Except Unit ℚ)) [1.0, 2.0, 3.0] [0.05]) =
      Except.map (fun out => out[1]?)
        (mapply2 (fun a b => (Except.ok (a * b) : Except Unit ℚ)) [7.0, 2.0, 9.0] [0.05]) :=
  ⟨⟨rfl, rfl, rfl, rfl⟩,
    (C6_no_cross_element_dependency (fun a b => a * b) (fun a b => Except.ok (a * b))
      [1.0, 2.0, 3.0] [0.05] [7.0, 2.0, 9.0] [0.05] 1 rfl rfl rfl rfl).1⟩

/-- C7: in `normal_log_mixture`, `normal_mixture_bound`,
`beta_binomial_log_mixture` and `beta_binomial_mixture_bound`, for every flag
value `b` every output element is the scalar function of the same name called
with sidedness `b`, after `v_opt`, (`g`, `h`,) `alpha_opt` in the order of the
scalar function; a call that omits the flag is the call with `is_one_sided = true`. -/
theorem C7_is_one_sided_passed_unchanged {D ε : Type} [OfScientific D]
    (mixture : D → D → D → D → Bool → D) (beta_binomial : D → D → D → D → D → D → Bool → D)
    (arg1 arg2 : List D) (v_opt g h : D) (alpha_opt : Option D) (b : Bool)
    (hs : (arg1 ≠ [] ∧ arg2 ≠ []) ∨ (arg1 = [] ∧ arg2 = [])) :
    (∃ out,
      normal_log_mixture (fun s v vo ao f => (Except.ok (mixture s v vo ao f) : Except ε D))
        arg1 arg2 v_opt alpha_opt (some b) = .ok out ∧
      out.length = max arg1.length arg2.length ∧
      ∀ i, i < max arg1.length arg2.length →
        ∃ x y, arg1[i % arg1.length]? = some x ∧ arg2[i % arg2.length]? = some y ∧
          out[i]? = some (mixture x y v_opt (alpha_opt.getD 0.05) b)) ∧
    (∃ out,
      normal_mixture_bound (fun s v vo ao f => (Except.ok (mixture s v vo ao f) : Except ε D))
        arg1 arg2 v_opt alpha_opt (some b) = .ok out ∧
      out.length = max arg1.length arg2.length ∧
      ∀ i, i < max arg1.length arg2.length →
        ∃ x y, arg1[i % arg1.length]? = some x ∧ arg2[i % arg2.length]? = some y ∧
          out[i]? = some (mixture x y v_opt (alpha_opt.getD 0.05) b)) ∧
    (∃ out,
      beta_binomial_log_mixture
        (fun s v vo p q ao f => (Except.ok (beta_binomial s v vo p q ao f) : Except ε D))
        arg1 arg2 v_opt g h alpha_opt (some b) = .ok out ∧
      out.length = max arg1.length arg2.length ∧
      ∀ i, i < max arg1.length arg2.length →
        ∃ x y, arg1[i % arg1.length]? = some x ∧ arg2[i % arg2.length]? = some y ∧
          out[i]? = some (beta_binomial x y v_opt g h (alpha_opt.getD 0.05) b)) ∧
    (∃ out,
      beta_binomial_mixture_bound
        (fun s v vo p q ao f => (Except.ok (beta_binomial s v vo p q ao f) : Except ε D))
        arg1 arg2 v_opt g h alpha_opt (some b) = .ok out ∧
      out.length = max arg1.length arg2.length ∧
      ∀ i, i < max arg1.length arg2.length →
        ∃ x y, arg1[i % arg1.length]? = some x ∧ arg2[i % arg2.length]? = some y ∧
          out[i]? = some (beta_binomial x y v_opt g h (alpha_opt.getD 0.05) b)) ∧
    (∀ core : D → D → D → D → Bool → Except ε D,
      normal_log_mixture core arg1 arg2 v_opt alpha_opt none =
        normal_log_mixture core arg1 arg2 v_opt alpha_opt (some true) ∧
      normal_mixture_bound core arg1 arg2 v_opt alpha_opt none =
        normal_mixture_bound core arg1 arg2 v_opt alpha_opt (some true)) ∧
    (∀ core : D → D → D → D → D → D → Bool → Except ε D,
      beta_binomial_log_mixture core arg1 arg2 v_opt g h alpha_opt none =
        beta_binomial_log_mixture core arg1 arg2 v_opt g h alpha_opt (some true) ∧
      beta_binomial_mixture_bound core arg1 arg2 v_opt g h alpha_opt none =
        beta_binomial_mixture_bound core arg1 arg2 v_opt g h alpha_opt (some true)) :=
  ⟨mapply2_total (fun x y => mixture x y v_opt (alpha_opt.getD 0.05) b) arg1 arg2 hs,
    mapply2_total (fun x y => mixture x y v_opt (alpha_opt.getD 0.05) b) arg1 arg2 hs,
    mapply2_total (fun x y => beta_binomial x y v_opt g h (alpha_opt.getD 0.05) b) arg1 arg2 hs,
    mapply2_total (fun x y => beta_binomial x y v_opt g h (alpha_opt.getD 0.05) b) arg1 arg2 hs,
    fun _ => ⟨rfl, rfl⟩, fun _ => ⟨rfl, rfl⟩⟩

/-- Instance of C7 on the documented call
`normal_log_mixture(c(10, 20), c(100, 400), 100, is_one_sided=FALSE)`. -/
theorem C7_is_one_sided_passed_unchanged_witness :
    ((([10.0, 20.0] : List ℚ) ≠ [] ∧ ([100.0, 400.0] : List ℚ) ≠ []) ∨
      (([10.0, 20.0] : List ℚ) = [] ∧ ([100.0, 400.0] : List ℚ) = [])) ∧
    ∃ out,
      normal_log_mixture
        (fun s v vo ao f => (Except.ok (if f then s + v + vo + ao else s * v) : Except Unit ℚ))
        [10.0, 20.0] [100.0, 400.0] 100.0 none (some false) = .ok out ∧
      out.length = max ([10.0, 20.0] : List ℚ).length ([100.0, 400.0] : List ℚ).length ∧
      ∀ i, i < max ([10.0, 20.0] : List ℚ).length ([100.0, 400.0] : List ℚ).length →
        ∃ x y, ([10.0, 20.0] : List ℚ)[i % ([10.0, 20.0] : List ℚ).length]? = some x ∧
          ([100.0, 400.0] : List ℚ)[i % ([100.0, 400.0] : List ℚ).length]? = some y ∧
          out[i]? = some (if false = true then x + y + 100.0 + (none : Option ℚ).getD 0.05
            else x * y) :=
  ⟨Or.inl ⟨List.cons_ne_nil _ _, List.cons_ne_nil _ _⟩,
    (C7_is_one_sided_passed_unchanged
      (fun s v vo ao f => if f then s + v + vo + ao else s * v)
      (fun s v _ _ _ _ _ => s + v)
      [10.0, 20.0] [100.0, 400.0] 100.0 0.2 0.8 none false
      (Or.inl ⟨List.cons_ne_nil _ _, List.cons_ne_nil _ _⟩)).1⟩

/-- C10: with a scalar second argument, `mapply2` over a concatenation is the
concatenation of `mapply2` over the pieces; for arguments of equal length
`mapply2` is the element-wise `zipWith`, so a batch evaluated in pieces and
concatenated is the batch evaluated at once. -/
theorem C10_batch_splitting {D ε : Type} [OfScientific D] (fn : D → D → D) :
    (∀ (x : D) (a b : List D), a ≠ [] → b ≠ [] →
      ∃ outa outb,
        mapply2 (fun u w => (Except.ok (fn u w) : Except ε D)) a [x] = .ok outa ∧
        mapply2 (fun u w => (Except.ok (fn u w) : Except ε D)) b [x] = .ok outb ∧
        mapply2 (fun u w => (Except.ok (fn u w) : Except ε D)) (a ++ b) [x] =
          .ok (outa ++ outb)) ∧
    (∀ arg1 arg2 : List D, arg1.length = arg2.length →
      mapply2 (fun u w => (Except.ok (fn u w) : Except ε D)) arg1 arg2 =
        .ok (List.zipWith fn arg1 arg2)) ∧
    (∀ a1 a2 b1 b2 : List D, a1.length = a2.length → b1.length = b2.length →
      ∃ outa outb,
        mapply2 (fun u w => (Except.ok (fn u w) : Except ε D)) a1 a2 = .ok outa ∧
        mapply2 (fun u w => (Except.ok (fn u w) : Except ε D)) b1 b2 = .ok outb ∧
        mapply2 (fun u w => (Except.ok (fn u w) : Except ε D)) (a1 ++ b1) (a2 ++ b2) =
          .ok (outa ++ outb)) := by
  have hscalar : ∀ (x : D) (a : List D), a ≠ [] →
      mapply2 (fun u w => (Except.ok (fn u w) : Except ε D)) a [x] =
        .ok (a.map (fun u => fn u x)) := by
    intro x a ha
    have hpos : 0 < a.length := List.length_pos.mpr ha
    have hmax : max a.length [x].length = a.length := by
      simp only [List.length_singleton]; omega
    apply mapply2_eq_of_getElem
    · rw [List.length_map, hmax]
    · intro i hi
      rw [hmax] at hi
      refine ⟨a.get ⟨i, hi⟩, x, fn (a.get ⟨i, hi⟩) x, ?_, ?_, rfl, ?_⟩
      · rw [Nat.mod_eq_of_lt hi]; exact List.getElem?_eq_getElem hi
      · simp [Nat.mod_one]
      · rw [List.getElem?_map, List.getElem?_eq_getElem hi]; rfl
  have hzip : ∀ arg1 arg2 : List D, arg1.length = arg2.length →
      mapply2 (fun u w => (Except.ok (fn u w) : Except ε D)) arg1 arg2 =
        .ok (List.zipWith fn arg1 arg2) := by
    intro arg1 arg2 hlen
    have hmax : max arg1.length arg2.length = arg1.length := by omega
    apply mapply2_eq_of_getElem
    · rw [List.length_zipWith, hmax]; omega
    · intro i hi
      rw [hmax] at hi
      have hi2 : i < arg2.length := by omega
      refine ⟨arg1.get ⟨i, hi⟩, arg2.get ⟨i, hi2⟩, fn (arg1.get ⟨i, hi⟩) (arg2.get ⟨i, hi2⟩),
        ?_, ?_, rfl, ?_⟩
      · rw [Nat.mod_eq_of_lt hi]; exact List.getElem?_eq_getElem hi
      · rw [Nat.mod_eq_of_lt hi2]; exact List.getElem?_eq_getElem hi2
      · rw [List.getElem?_zipWith, List.getElem?_eq_getElem hi, List.getElem?_eq_getElem hi2]
        rfl
  refine ⟨?_, hzip, ?_⟩
  · intro x a b ha hb
    refine ⟨_, _, hscalar x a ha, hscalar x b hb, ?_⟩
    rw [hscalar x (a ++ b) (by simp [ha]), List.map_append]
  · intro a1 a2 b1 b2 h1 h2
    refine ⟨_, _, hzip a1 a2 h1, hzip b1 b2 h2, ?_⟩
    rw [hzip (a1 ++ b1) (a2 ++ b2) (by simp [h1, h2]), List.zipWith_append _ _ _ _ _ h1]

/-- Instance of C10: the batch `[100, 200, 300]` against the scalar `0.05`, split after
its first element. -/
theorem C10_batch_splitting_witness :
    (([100.0] : List ℚ) ≠ [] ∧ ([200.0, 300.0] : List ℚ) ≠ []) ∧
    ∃ outa outb,
      mapply2 (fun u w => (Except.ok (u * w) : Except Unit ℚ)) [100.0] [0.05] = .ok outa ∧
      mapply2 (fun u w => (Except.ok (u * w) : Except Unit ℚ)) [200.0, 300.0] [0.05] =
        .ok outb ∧
      mapply2 (fun u w => (Except.ok (u * w) : Except Unit ℚ))
        ([100.0] ++ [200.0, 300.0]) [0.05] = .ok (outa ++ outb) :=
  ⟨⟨List.cons_ne_nil _ _, List.cons_ne_nil _ _⟩,
    (C10_batch_splitting (fun u w => u * w)).1 0.05 [100.0] [200.0, 300.0]
      (List.cons_ne_nil _ _) (List.cons_ne_nil _ _)⟩

/-- C2, as amended: the vectorised functions check no shape and raise no
shape error; when every vector argument is empty, `mapply2`, `mapply3` and
`bernoulli_confidence_interval` return an empty result (for the last, `lower`
and `upper` both empty) without a call of the scalar function, whatever it is. -/
theorem C2_all_empty_returns_empty {D ε : Type} [OfScientific D] :
    (∀ fn : D → D → Except ε D, mapply2 fn [] [] = .ok []) ∧
    (∀ fn : D → D → D → Except ε D, mapply3 fn [] [] [] = .ok []) ∧
    (∀ (core : D → D → D → D → D → Except ε (D × D)) (alpha t_opt : D) (alpha_opt : Option D),
      bernoulli_confidence_interval core [] [] alpha t_opt alpha_opt =
        .ok [("lower", []), ("upper", [])]) ∧
    (∀ (core : D → D → D → D → Bool → Except ε D) (v_opt : D) (alpha_opt : Option D)
        (is_one_sided : Option Bool),
      normal_mixture_bound core [] [] v_opt alpha_opt is_one_sided = .ok []) ∧
    (∀ (core : D → D → D → D → D → D → D → Except ε D) (t_opt : D) (delta s eta : Option D),
      double_stitching_bound core [] [] [] t_opt delta s eta = .ok []) :=
  ⟨fun _ => rfl, fun _ => rfl, fun _ _ _ _ => rfl, fun _ _ _ _ => rfl, fun _ _ _ _ _ => rfl⟩

/-- C2 fails as stated: on two empty vectors `mapply2` does not fail, it
returns the empty vector, even for a scalar function that always throws. -/
theorem C2_counterexample :
    mapply2 (fun _ _ => (Except.error "DomainError" : Except String ℚ)) [] [] = .ok [] ∧
    ¬ ∃ e, mapply2 (fun _ _ => (Except.error "DomainError" : Except String ℚ)) [] [] =
      .error e := by
  constructor
  · rfl
  · rintro ⟨e, he⟩
    have h : mapply2 (fun _ _ => (Except.error "DomainError" : Except String ℚ)) [] [] =
        .ok [] := rfl
    rw [h] at he
    cases he

/-- C3 fails as stated: on `arg1 = [1, 0, 2]`, `arg2 = [5]` the scalar call
of element 1 fails and that of element 2 succeeds with 7, but the call of
`mapply2` fails as a whole and delivers no element. -/
theorem C3_counterexample :
    rejectsZero 0 5 = .error "DomainError" ∧ rejectsZero 2 5 = .ok 7 ∧
    mapply2 rejectsZero [1, 0, 2] [5] = .error (.raised "DomainError") ∧
    ¬ ∃ out, mapply2 rejectsZero [1, 0, 2] [5] = .ok out ∧ out[2]? = some 7 := by
  have h : mapply2 rejectsZero [1, 0, 2] [5] = .error (.raised "DomainError") := by
    simp [mapply2, forLoop, rep_len, Rep_len.get, call, rejectsZero, bind, Except.bind,
      pure, Except.pure]
  refine ⟨by simp [rejectsZero], by simp [rejectsZero]; norm_num, h, ?_⟩
  rintro ⟨out, hout, _⟩
  rw [h] at hout
  cases hout

/-- C3, as amended: for vectors both non-empty or both empty, if the scalar
call of some element fails then the whole call of `mapply2` fails with an
error of the scalar function and returns no vector; the sibling results are
delivered when every scalar call succeeds, and then element `j` is the result
of the scalar call on the `j`-th recycled arguments. -/
theorem C3_failure_aborts_batch {D ε : Type} [OfScientific D] (fn : D → D → Except ε D)
    (arg1 arg2 : List D) (hs : (arg1 ≠ [] ∧ arg2 ≠ []) ∨ (arg1 = [] ∧ arg2 = [])) :
    (∀ i e, i < max arg1.length arg2.length →
      (∃ a b, arg1[i % arg1.length]? = some a ∧ arg2[i % arg2.length]? = some b ∧
        fn a b = .error e) →
      (∃ e0, mapply2 fn arg1 arg2 = .error (.raised e0)) ∧
        ¬ ∃ out, mapply2 fn arg1 arg2 = .ok out) ∧
    ((∀ i, i < max arg1.length arg2.length →
        ∃ a b v, arg1[i % arg1.length]? = some a ∧ arg2[i % arg2.length]? = some b ∧
          fn a b = .ok v) →
      ∃ out, mapply2 fn arg1 arg2 = .ok out ∧ out.length = max arg1.length arg2.length ∧
        ∀ j, j < max arg1.length arg2.length →
          ∃ a b v, arg1[j % arg1.length]? = some a ∧ arg2[j % arg2.length]? = some b ∧
            fn a b = .ok v ∧ out[j]? = some v) := by
  refine ⟨?_, mapply2_returns_of_ok fn arg1 arg2⟩
  intro i e hi ⟨a, b, ha, hb, hfail⟩
  have hraised : ∃ e0, mapply2 fn arg1 arg2 = .error (.raised e0) := by
    rcases mapply2_ok_or_first_error fn arg1 arg2 hs with hall | ⟨k, e0, hk, hke, hbefore⟩
    · obtain ⟨x, y, v, hx, hy, hv⟩ := hall i hi
      rw [ha] at hx; rw [hb] at hy
      cases hx; cases hy
      rw [hfail] at hv
      cases hv
    · exact ⟨e0, mapply2_first_error fn arg1 arg2 k e0 hk hke hbefore⟩
  refine ⟨hraised, ?_⟩
  rintro ⟨out, hout⟩
  obtain ⟨e0, he0⟩ := hraised
  rw [he0] at hout
  cases hout

/-- Instance of the amended C3 on `arg1 = [1, 0, 2]`, `arg2 = [5]`, where element 1 fails. -/
theorem C3_failure_aborts_batch_witness :
    (((([1, 0, 2] : List ℚ) ≠ [] ∧ ([5] : List ℚ) ≠ []) ∨
        (([1, 0, 2] : List ℚ) = [] ∧ ([5] : List ℚ) = [])) ∧
      1 < max ([1, 0, 2] : List ℚ).length ([5] : List ℚ).length ∧
      ∃ a b, ([1, 0, 2] : List ℚ)[1 % ([1, 0, 2] : List ℚ).length]? = some a ∧
        ([5] : List ℚ)[1 % ([5] : List ℚ).length]? = some b ∧
        rejectsZero a b = .error "DomainError") ∧
    ((∃ e0, mapply2 rejectsZero [1, 0, 2] [5] = .error (.raised e0)) ∧
      ¬ ∃ out, mapply2 rejectsZero [1, 0, 2] [5] = .ok out) :=
  ⟨⟨Or.inl ⟨List.cons_ne_nil _ _, List.cons_ne_nil _ _⟩, by decide,
      ⟨0, 5, rfl, rfl, by simp [rejectsZero]⟩⟩,
    (C3_failure_aborts_batch rejectsZero [1, 0, 2] [5]
      (Or.inl ⟨List.cons_ne_nil _ _, List.cons_ne_nil _ _⟩)).1 1 "DomainError" (by decide)
      ⟨0, 5, rfl, rfl, by simp [rejectsZero]⟩⟩

/-- C9: a call through `mapply2`, `mapply3` or the loop of
`bernoulli_confidence_interval` returns a result exactly when the scalar call
succeeds for every index `i < n`; when the scalar call fails with `e` at an
index `k` and succeeds at every smaller index, the whole call fails with that
same `e` and returns nothing; and, for vectors all non-empty or all empty,
one of the two cases always applies. -/
theorem C9_core_errors_surface {D ε : Type} [OfScientific D]
    (fn : D → D → Except ε D) (arg1 arg2 : List D)
    (fn3 : D → D → D → Except ε D) (q t a3 : List D)
    (core : D → D → D → D → D → Except ε (D × D)) (num_successes num_trials : List D)
    (alpha t_opt : D) (alpha_opt : Option D) :
    (((∃ out, mapply2 fn arg1 arg2 = .ok out) ↔
        ∀ i, i < max arg1.length arg2.length →
          ∃ a b v, arg1[i % arg1.length]? = some a ∧ arg2[i % arg2.length]? = some b ∧
            fn a b = .ok v) ∧
      (∀ k e, k < max arg1.length arg2.length →
        (∃ a b, arg1[k % arg1.length]? = some a ∧ arg2[k % arg2.length]? = some b ∧
          fn a b = .error e) →
        (∀ i, i < k →
          ∃ a b v, arg1[i % arg1.length]? = some a ∧ arg2[i % arg2.length]? = some b ∧
            fn a b = .ok v) →
        mapply2 fn arg1 arg2 = .error (.raised e)) ∧
      ((arg1 ≠ [] ∧ arg2 ≠ []) ∨ (arg1 = [] ∧ arg2 = []) →
        (∃ out, mapply2 fn arg1 arg2 = .ok out) ∨
        ∃ k e, k < max arg1.length arg2.length ∧
          (∃ a b, arg1[k % arg1.length]? = some a ∧ arg2[k % arg2.length]? = some b ∧
            fn a b = .error e) ∧
          (∀ i, i < k →
            ∃ a b v, arg1[i % arg1.length]? = some a ∧ arg2[i % arg2.length]? = some b ∧
              fn a b = .ok v) ∧
          mapply2 fn arg1 arg2 = .error (.raised e))) ∧
    (((∃ out, mapply3 fn3 q t a3 = .ok out) ↔
        ∀ i, i < max q.length (max t.length a3.length) →
          ∃ a b c v, q[i % q.length]? = some a ∧ t[i % t.length]? = some b ∧
            a3[i % a3.length]? = some c ∧ fn3 a b c = .ok v) ∧
      (∀ k e, k < max q.length (max t.length a3.length) →
        (∃ a b c, q[k % q.length]? = some a ∧ t[k % t.length]? = some b ∧
          a3[k % a3.length]? = some c ∧ fn3 a b c = .error e) →
        (∀ i, i < k →
          ∃ a b c v, q[i % q.length]? = some a ∧ t[i % t.length]? = some b ∧
            a3[i % a3.length]? = some c ∧ fn3 a b c = .ok v) →
        mapply3 fn3 q t a3 = .error (.raised e)) ∧
      ((q ≠ [] ∧ t ≠ [] ∧ a3 ≠ []) ∨ (q = [] ∧ t = [] ∧ a3 = []) →
        (∃ out, mapply3 fn3 q t a3 = .ok out) ∨
        ∃ k e, k < max q.length (max t.length a3.length) ∧
          (∃ a b c, q[k % q.length]? = some a ∧ t[k % t.length]? = some b ∧
            a3[k % a3.length]? = some c ∧ fn3 a b c = .error e) ∧
          (∀ i, i < k →
            ∃ a b c v, q[i % q.length]? = some a ∧ t[i % t.length]? = some b ∧
              a3[i % a3.length]? = some c ∧ fn3 a b c = .ok v) ∧
          mapply3 fn3 q t a3 = .error (.raised e))) ∧
    (((∃ res, bernoulli_confidence_interval core num_successes num_trials alpha t_opt
          alpha_opt = .ok res) ↔
        ∀ i, i < max num_successes.length num_trials.length →
          ∃ a b v, num_successes[i % num_successes.length]? = some a ∧
            num_trials[i % num_trials.length]? = some b ∧
            core a b alpha t_opt (alpha_opt.getD 0.05) = .ok v) ∧
      (∀ k e, k < max num_successes.length num_trials.length →
        (∃ a b, num_successes[k % num_successes.length]? = some a ∧
          num_trials[k % num_trials.length]? = some b ∧
          core a b alpha t_opt (alpha_opt.getD 0.05) = .error e) →
        (∀ i, i < k →
          ∃ a b v, num_successes[i % num_successes.length]? = some a ∧
            num_trials[i % num_trials.length]? = some b ∧
            core a b alpha t_opt (alpha_opt.getD 0.05) = .ok v) →
        bernoulli_confidence_interval core num_successes num_trials alpha t_opt alpha_opt =
          .error (.raised e)) ∧
      ((num_successes ≠ [] ∧ num_trials ≠ []) ∨ (num_successes = [] ∧ num_trials = []) →
        (∃ res, bernoulli_confidence_interval core num_successes num_trials alpha t_opt
          alpha_opt = .ok res) ∨
        ∃ k e, k < max num_successes.length num_trials.length ∧
          (∃ a b, num_successes[k % num_successes.length]? = some a ∧
            num_trials[k % num_trials.length]? = some b ∧
            core a b alpha t_opt (alpha_opt.getD 0.05) = .error e) ∧
          (∀ i, i < k →
            ∃ a b v, num_successes[i % num_successes.length]? = some a ∧
              num_trials[i % num_trials.length]? = some b ∧
              core a b alpha t_opt (alpha_opt.getD 0.05) = .ok v) ∧
          bernoulli_confidence_interval core num_successes num_trials alpha t_opt alpha_opt =
            .error (.raised e))) := by
  refine ⟨⟨⟨?_, ?_⟩, mapply2_first_error fn arg1 arg2, ?_⟩,
    ⟨⟨?_, mapply3_returns_of_ok fn3 q t a3⟩, mapply3_first_error fn3 q t a3, ?_⟩,
    ⟨⟨?_, bernoulli_returns_of_ok core num_successes num_trials alpha t_opt alpha_opt⟩,
      bernoulli_first_error core num_successes num_trials alpha t_opt alpha_opt, ?_⟩⟩
  · rintro ⟨out, hout⟩
    exact mapply2_ok_visits fn arg1 arg2 out hout
  · intro hall
    obtain ⟨out, hout, _⟩ := mapply2_returns_of_ok fn arg1 arg2 hall
    exact ⟨out, hout⟩
  · intro hs
    rcases mapply2_ok_or_first_error fn arg1 arg2 hs with hall | ⟨k, e, hk, hke, hbefore⟩
    · obtain ⟨out, hout, _⟩ := mapply2_returns_of_ok fn arg1 arg2 hall
      exact Or.inl ⟨out, hout⟩
    · exact Or.inr ⟨k, e, hk, hke, hbefore, mapply2_first_error fn arg1 arg2 k e hk hke hbefore⟩
  · rintro ⟨out, hout⟩
    exact mapply3_ok_visits fn3 q t a3 out hout
  · intro hs
    rcases mapply3_ok_or_first_error fn3 q t a3 hs with hall | ⟨k, e, hk, hke, hbefore⟩
    · exact Or.inl (mapply3_returns_of_ok fn3 q t a3 hall)
    · exact Or.inr ⟨k, e, hk, hke, hbefore, mapply3_first_error fn3 q t a3 k e hk hke hbefore⟩
  · rintro ⟨res, hres⟩
    exact bernoulli_ok_visits core num_successes num_trials alpha t_opt alpha_opt res hres
  · intro hs
    rcases bernoulli_ok_or_first_error core num_successes num_trials alpha t_opt alpha_opt hs
      with hall | ⟨k, e, hk, hke, hbefore⟩
    · exact Or.inl
        (bernoulli_returns_of_ok core num_successes num_trials alpha t_opt alpha_opt hall)
    · exact Or.inr ⟨k, e, hk, hke, hbefore,
        bernoulli_first_error core num_successes num_trials alpha t_opt alpha_opt k e hk hke
          hbefore⟩

/-- Instance of C9: in `mapply2 rejectsZero [3, 0, 0] [5]` the scalar call
succeeds at index 0 and fails first at index 1; the call fails with that error. -/
theorem C9_core_errors_surface_witness :
    (1 < max ([3, 0, 0] : List ℚ).length ([5] : List ℚ).length ∧
      (∃ a b, ([3, 0, 0] : List ℚ)[1 % ([3, 0, 0] : List ℚ).length]? = some a ∧
        ([5] : List ℚ)[1 % ([5] : List ℚ).length]? = some b ∧
        rejectsZero a b = .error "DomainError") ∧
      (∀ i, i < 1 →
        ∃ a b v, ([3, 0, 0] : List ℚ)[i % ([3, 0, 0] : List ℚ).length]? = some a ∧
          ([5] : List ℚ)[i % ([5] : List ℚ).length]? = some b ∧ rejectsZero a b = .ok v)) ∧
    mapply2 rejectsZero [3, 0, 0] [5] = .error (.raised "DomainError") :=
  have h1 : 1 < max ([3, 0, 0] : List ℚ).length ([5] : List ℚ).length := by decide
  have h2 : ∃ a b, ([3, 0, 0] : List ℚ)[1 % ([3, 0, 0] : List ℚ).length]? = some a ∧
      ([5] : List ℚ)[1 % ([5] : List ℚ).length]? = some b ∧
      rejectsZero a b = .error "DomainError" := ⟨0, 5, rfl, rfl, by simp [rejectsZero]⟩
  have h3 : ∀ i, i < 1 →
      ∃ a b v, ([3, 0, 0] : List ℚ)[i % ([3, 0, 0] : List ℚ).length]? = some a ∧
        ([5] : List ℚ)[i % ([5] : List ℚ).length]? = some b ∧ rejectsZero a b = .ok v := by
    intro i hi
    have hi0 : i = 0 := by omega
    subst hi0
    exact ⟨3, 5, 8, rfl, rfl, by simp [rejectsZero]; norm_num⟩
  ⟨⟨h1, h2, h3⟩,
    (C9_core_errors_surface rejectsZero [3, 0, 0] [5] (fun _ _ _ => .ok 0) [] [] []
      (fun _ _ _ _ _ => .ok (0, 0)) [] [] 0 0 none).1.2.1 1 "DomainError" h1 h2 h3⟩

end ConfseqInterface
